import Mathlib

/-!
# mtn (movie thumbnailer): verification of the helper modules

A shallow embedding of `mtn_context.c`, `mtn_error.c` and `mtn_thumbnail.c`.

Conventions of the embedding
* a C pointer is an `Option`: `none` is `NULL`;
* a pointer to a resource owned by an external library (a frame, a scaler, a
  GD image, a `FILE*`) is an `Option Handle`, the handle being an abstract
  identity;
* `int` values are `Int`; `double` values are rationals `ℚ` (only literals,
  copies and comparisons of them occur);
* a C string is the list of its characters before the terminating NUL;
* a function that writes through its `ctx` pointer returns the new state next
  to its return value.
-/

namespace Mtn

/-! ## Data model of `mtn_thumbnail.h` -/

/-- An abstract identity of a resource owned by libav, GD or stdio. -/
abbrev Handle := Nat

/-- A C string: its characters before the terminating NUL. -/
abbrev CString := List Char

/-- The value `AVMEDIA_TYPE_VIDEO` of libavutil's `enum AVMediaType`. -/
def AVMEDIA_TYPE_VIDEO : Int := 0

/-- The flag `AVFMT_FLAG_GENPTS` of libavformat. -/
def AVFMT_FLAG_GENPTS : Nat := 1

/-- The number of `duration` units per second in libavformat (`AV_TIME_BASE`). -/
def AV_TIME_BASE : Int := 1000000

/-- The part of `AVCodecParameters` the module reads. -/
structure AVCodecParameters where
  codec_type : Int
  codec_id : Int
  width : Int
  height : Int
deriving DecidableEq, Repr

/-- The part of `AVStream` the module reads: codec parameters, the time base
`num/den` and the metadata dictionary in insertion order. -/
structure AVStream where
  codecpar : AVCodecParameters
  time_base_num : Int
  time_base_den : Int
  metadata : List (CString × CString)
deriving DecidableEq, Repr

/-- The part of `AVFormatContext` the module reads or writes; `nb_streams` is
the length of `streams`, `duration` is in `AV_TIME_BASE` units. -/
structure AVFormatContext where
  flags : Nat
  duration : Int
  streams : List AVStream
deriving DecidableEq, Repr

/-- The part of `AVCodecContext` the module reads. -/
structure AVCodecContext where
  codec_id : Int
  width : Int
  height : Int
deriving DecidableEq, Repr

/-- The struct `ThumbnailContext` of `mtn_thumbnail.h`, field by field. -/
structure ThumbnailContext where
  format_ctx : Option AVFormatContext
  codec_ctx : Option AVCodecContext
  frame : Option Handle
  frame_rgb : Option Handle
  rgb_buffer : Option Handle
  sws_ctx : Option Handle
  buffersink_ctx : Option Handle
  buffersrc_ctx : Option Handle
  filter_graph : Option Handle
  out_image : Option Handle
  shadow_image : Option Handle
  info_fp : Option Handle
  video_index : Int
  rotation : Int
  time_base : ℚ
  timestamp_enabled : Int
  format_ctx_opened : Int
  codec_ctx_opened : Int
  filter_graph_initialized : Int
deriving DecidableEq, Repr

/-- What `thumbnail_context_init` leaves behind: `memset(ctx, 0, sizeof ...)`. -/
def ThumbnailContext.zeroed : ThumbnailContext :=
  { format_ctx := none, codec_ctx := none, frame := none, frame_rgb := none,
    rgb_buffer := none, sws_ctx := none, buffersink_ctx := none,
    buffersrc_ctx := none, filter_graph := none, out_image := none,
    shadow_image := none, info_fp := none, video_index := 0, rotation := 0,
    time_base := 0, timestamp_enabled := 0, format_ctx_opened := 0,
    codec_ctx_opened := 0, filter_graph_initialized := 0 }

/-- The function `thumbnail_context_init`: nothing for `NULL`, otherwise the
all-zero context. -/
def thumbnail_context_init : Option ThumbnailContext → Option ThumbnailContext
  | none => none
  | some _ => some ThumbnailContext.zeroed

/-- The function `thumbnail_decode_and_assemble` of `mtn_thumbnail.c`: the
three layout arguments are cast to `void`, the result is `-1` when `ctx` or
`ctx->codec_ctx` is `NULL` and `0` otherwise, and nothing is written through
`ctx`. The pair is the return value and the context after the call. -/
def thumbnail_decode_and_assemble (ctx : Option ThumbnailContext)
    (_columns _rows _step : Int) : Int × Option ThumbnailContext :=
  match ctx with
  | none => (-1, ctx)
  | some c =>
    match c.codec_ctx with
    | none => (-1, ctx)
    | some _ => (0, ctx)

/-! ## Data model of `mtn_context.h` -/

/-- The struct `rgb_color`. -/
structure rgb_color where
  r : Int
  g : Int
  b : Int
deriving DecidableEq, Repr

/-- The struct `AVRational` of libavutil. -/
structure AVRational where
  num : Int
  den : Int
deriving DecidableEq, Repr

def COLOR_BLACK : rgb_color := ⟨0, 0, 0⟩
def COLOR_GREY : rgb_color := ⟨128, 128, 128⟩
def COLOR_WHITE : rgb_color := ⟨255, 255, 255⟩
def COLOR_INFO : rgb_color := ⟨85, 85, 85⟩

def GB_A_RATIO : AVRational := ⟨0, 1⟩
def GB_B_BLANK : ℚ := 8 / 10
def GB_B_BEGIN : ℚ := 0
def GB_C_COLUMN : Int := 3
def GB_C_CUT : ℚ := -1
def GB_D_DEPTH : Int := -1
def GB_D_EDGE : Int := 12
def GB_E_EXT : String :=
  "3gp,3g2,asf,avi,avs,dat,divx,dsm,evo,flv,m1v,m2ts,m2v,m4v,mj2,mjpg,mjpeg,mkv,mov,moov,mp4,mpg,mpeg,mpv,nut,ogg,ogm,qt,rm,rmvb,swf,ts,vob,webm,wmv,xvid"
def GB_G_GAP : Int := 0
def GB_H_HEIGHT : Int := 150
def GB_I_INFO : Int := 1
def GB_I_INDIVIDUAL : Int := 0
def GB_J_QUALITY : Int := 90
def GB_K_BCOLOR : rgb_color := COLOR_WHITE
def GB_L_INFO_LOCATION : Int := 4
def GB_L_TIME_LOCATION : Int := 1
def GB_N_NORMAL : Int := 0
def GB_O_SUFFIX : String := "_s.jpg"
def GB_P_PAUSE : Int := 0
def GB_P_DONTPAUSE : Int := 0
def GB_Q_QUIET : Int := 0
def GB_R_ROW : Int := 0
def GB_S_STEP : Int := 120
def GB_S_SELECT_VIDEO_STREAM : Int := 0
def GB_T_TIME : Int := 1
def GB_V_VERBOSE : Int := 0
def GB_W_WIDTH : Int := 1024
def GB_W_OVERWRITE : Int := 1
def GB_X_FILENAME_USE_FULL : Int := 0
def GB_Z_SEEK : Int := 0
def GB_Z_NONSEEK : Int := 0

/-- Defaults that `mtn_context.c` defines itself ("import defaults from mtn.c"). -/
def GB_E_END : ℚ := 0
def GB_H_human_filesize : Int := 0
def GB_N_SUFFIX : Option String := none
def GB_O_OUTDIR : Option String := none
def GB_T_TEXT : Option String := none

/-- The preprocessor symbols `mtn_context.c` tests: a `GB_F_FONTNAME` given on
the compiler's command line, `__APPLE__` and `_WIN32`. -/
structure BuildConfig where
  fontname_defined : Option String
  apple : Bool
  win32 : Bool
deriving DecidableEq, Repr

/-- The value of `GB_F_FONTNAME` after the `#ifndef` cascade of `mtn_context.c`. -/
def GB_F_FONTNAME (cfg : BuildConfig) : String :=
  match cfg.fontname_defined with
  | some f => f
  | none =>
    if cfg.apple then "Tahoma Bold.ttf"
    else if cfg.win32 then "tahomabd.ttf"
    else "DejaVuSans.ttf"

/-- The struct `MtnContext` of `mtn_context.h`, field by field. -/
structure MtnContext where
  a_ratio : AVRational
  b_blank : ℚ
  B_begin : ℚ
  c_column : Int
  C_cut : ℚ
  d_depth : Int
  D_edge : Int
  e_ext : Option String
  E_end : ℚ
  f_fontname : Option String
  F_info_color : rgb_color
  F_info_font_size : ℚ
  F_ts_fontname : Option String
  F_ts_color : rgb_color
  F_ts_shadow : rgb_color
  F_ts_font_size : ℚ
  g_gap : Int
  h_height : Int
  H_human_filesize : Int
  i_info : Int
  I_individual : Int
  I_individual_thumbnail : Int
  I_individual_original : Int
  I_individual_ignore_grid : Int
  j_quality : Int
  k_bcolor : rgb_color
  L_info_location : Int
  L_time_location : Int
  n_normal : Int
  N_suffix : Option String
  o_suffix : Option String
  O_outdir : Option String
  p_pause : Int
  P_dontpause : Int
  q_quiet : Int
  r_row : Int
  s_step : Int
  S_select_video_stream : Int
  t_timestamp : Int
  T_text : Option String
  v_verbose : Int
  V : Int
  w_width : Int
  W_overwrite : Int
  x_basename_custom : Option String
  X_filename_use_full : Int
  z_seek : Int
  Z_nonseek : Int
  _shadow : Int
  _transparent_bg : Int
  _cover : Int
  _webvtt : Int
  _cover_suffix : Option String
  _webvtt_prefix : Option String
  _options : Option Handle
  _filters : Option String
  _filter_color_primaries : Option String
  _tonemap : Int
  argv0 : Option String
  version : Option String
  st_start : Int
  movie_ext : Option (List String)
  fcStrFlagsInfotext : Option Handle
  fcStrFlagsTimestamp : Option Handle

/-- The state after `memset(ctx, 0, sizeof(MtnContext))`. -/
def MtnContext.zeroed : MtnContext :=
  { a_ratio := ⟨0, 0⟩, b_blank := 0, B_begin := 0, c_column := 0, C_cut := 0,
    d_depth := 0, D_edge := 0, e_ext := none, E_end := 0, f_fontname := none,
    F_info_color := ⟨0, 0, 0⟩, F_info_font_size := 0, F_ts_fontname := none,
    F_ts_color := ⟨0, 0, 0⟩, F_ts_shadow := ⟨0, 0, 0⟩, F_ts_font_size := 0,
    g_gap := 0, h_height := 0, H_human_filesize := 0, i_info := 0,
    I_individual := 0, I_individual_thumbnail := 0, I_individual_original := 0,
    I_individual_ignore_grid := 0, j_quality := 0, k_bcolor := ⟨0, 0, 0⟩,
    L_info_location := 0, L_time_location := 0, n_normal := 0, N_suffix := none,
    o_suffix := none, O_outdir := none, p_pause := 0, P_dontpause := 0,
    q_quiet := 0, r_row := 0, s_step := 0, S_select_video_stream := 0,
    t_timestamp := 0, T_text := none, v_verbose := 0, V := 0, w_width := 0,
    W_overwrite := 0, x_basename_custom := none, X_filename_use_full := 0,
    z_seek := 0, Z_nonseek := 0, _shadow := 0, _transparent_bg := 0,
    _cover := 0, _webvtt := 0, _cover_suffix := none, _webvtt_prefix := none,
    _options := none, _filters := none, _filter_color_primaries := none,
    _tonemap := 0, argv0 := none, version := none, st_start := 0,
    movie_ext := none, fcStrFlagsInfotext := none, fcStrFlagsTimestamp := none }

/-- The function `mtn_context_init` of `mtn_context.c`: nothing for a `NULL`
context; otherwise `memset` to zero followed by the assignments of the body,
in the order of the source. -/
def mtn_context_init (cfg : BuildConfig) : Option MtnContext → Option MtnContext
  | none => none
  | some _ =>
    let ctx := MtnContext.zeroed
    some { ctx with
      a_ratio := GB_A_RATIO
      b_blank := GB_B_BLANK
      B_begin := GB_B_BEGIN
      c_column := GB_C_COLUMN
      C_cut := GB_C_CUT
      d_depth := GB_D_DEPTH
      D_edge := GB_D_EDGE
      e_ext := some GB_E_EXT
      E_end := GB_E_END
      f_fontname := some (GB_F_FONTNAME cfg)
      F_info_color := COLOR_INFO
      F_info_font_size := 9
      F_ts_fontname := some (GB_F_FONTNAME cfg)
      F_ts_color := COLOR_WHITE
      F_ts_shadow := COLOR_BLACK
      F_ts_font_size := 8
      g_gap := GB_G_GAP
      h_height := GB_H_HEIGHT
      H_human_filesize := GB_H_human_filesize
      i_info := GB_I_INFO
      I_individual := GB_I_INDIVIDUAL
      I_individual_thumbnail := 0
      I_individual_original := 0
      I_individual_ignore_grid := 0
      j_quality := GB_J_QUALITY
      k_bcolor := GB_K_BCOLOR
      L_info_location := GB_L_INFO_LOCATION
      L_time_location := GB_L_TIME_LOCATION
      n_normal := GB_N_NORMAL
      N_suffix := GB_N_SUFFIX
      o_suffix := some GB_O_SUFFIX
      O_outdir := GB_O_OUTDIR
      p_pause := if cfg.win32 then 1 else 0
      P_dontpause := GB_P_DONTPAUSE
      q_quiet := GB_Q_QUIET
      r_row := GB_R_ROW
      s_step := GB_S_STEP
      S_select_video_stream := GB_S_SELECT_VIDEO_STREAM
      t_timestamp := GB_T_TIME
      T_text := GB_T_TEXT
      v_verbose := GB_V_VERBOSE
      V := GB_V_VERBOSE
      w_width := GB_W_WIDTH
      W_overwrite := GB_W_OVERWRITE
      x_basename_custom := none
      X_filename_use_full := GB_X_FILENAME_USE_FULL
      z_seek := GB_Z_SEEK
      Z_nonseek := GB_Z_NONSEEK
      _shadow := -1
      _transparent_bg := 0
      _cover := 0
      _webvtt := 0
      _cover_suffix := some "_cover.jpg"
      _webvtt_prefix := some ""
      _options := none
      _filters := none
      _filter_color_primaries := none
      _tonemap := 0
      argv0 := none
      version := some "3.5.0"
      st_start := 0
      movie_ext := none
      fcStrFlagsInfotext := none
      fcStrFlagsTimestamp := none }

/-! ## The sampling window of the specification (§4.1) -/

/-- The effective start of the sampled window, in the words of the
specification: the `begin` trim. -/
def effective_start (opts : MtnContext) : ℚ :=
  opts.B_begin

/-- The effective end of the sampled window, in the words of the
specification: `duration - end_trim`, clamped to `start + cut` when a cut
duration is set (`cut > 0`). -/
def effective_end (opts : MtnContext) (duration : ℚ) : ℚ :=
  if 0 < opts.C_cut then min (duration - opts.E_end) (effective_start opts + opts.C_cut)
  else duration - opts.E_end

/-- The duration of an opened container in seconds. -/
def duration_seconds (fc : AVFormatContext) : ℚ :=
  (fc.duration : ℚ) / (AV_TIME_BASE : ℚ)

/-- The targets of the specification's auto mode: `columns*rows` midpoints of
equal sub-intervals of the window `[start, stop)`. -/
def midpoint_targets (start stop : ℚ) (columns rows : Int) : List ℚ :=
  (List.range (columns * rows).toNat).map
    (fun (i : Nat) => start + (stop - start) / ((columns * rows : Int) : ℚ) * ((i : ℚ) + 1 / 2))

/-- The targets of the specification's step mode:
`start, start+step, start+2*step, ...` while below `stop`. -/
def step_targets (start stop : ℚ) (step : Int) : List ℚ :=
  (List.range ⌈(stop - start) / (step : ℚ)⌉.toNat).map (fun (i : Nat) => start + (step : ℚ) * (i : ℚ))

/-! ## `mtn_error.h` and `mtn_error.c` -/

def MTN_SUCCESS : Int := 0
def MTN_ERROR_GENERIC : Int := -1
def MTN_ERROR_INVALID_ARG : Int := -2
def MTN_ERROR_OUT_OF_MEMORY : Int := -3
def MTN_ERROR_FILE_NOT_FOUND : Int := -4
def MTN_ERROR_FILE_CREATE_FAILED : Int := -5
def MTN_ERROR_CODEC_NOT_FOUND : Int := -6
def MTN_ERROR_CODEC_OPEN_FAILED : Int := -7
def MTN_ERROR_STREAM_NOT_FOUND : Int := -8
def MTN_ERROR_DECODE_FAILED : Int := -9
def MTN_ERROR_FILTER_INIT_FAILED : Int := -10
def MTN_ERROR_IMAGE_SAVE_FAILED : Int := -11
def MTN_ERROR_BUFFER_TOO_SMALL : Int := -12

/-- The function `mtn_error_string` of `mtn_error.c`. The argument is the `int`
underlying the enum `MtnError`; the result is a `const char*`, `none` being
`NULL`. The `switch` is the chain of its cases in source order. -/
def mtn_error_string (err : Int) : Option String :=
  if err = MTN_SUCCESS then some "Success"
  else if err = MTN_ERROR_GENERIC then some "Generic error"
  else if err = MTN_ERROR_INVALID_ARG then some "Invalid argument"
  else if err = MTN_ERROR_OUT_OF_MEMORY then some "Out of memory"
  else if err = MTN_ERROR_FILE_NOT_FOUND then some "File not found"
  else if err = MTN_ERROR_FILE_CREATE_FAILED then some "File creation failed"
  else if err = MTN_ERROR_CODEC_NOT_FOUND then some "Codec not found"
  else if err = MTN_ERROR_CODEC_OPEN_FAILED then some "Codec open failed"
  else if err = MTN_ERROR_STREAM_NOT_FOUND then some "Stream not found"
  else if err = MTN_ERROR_DECODE_FAILED then some "Decode failed"
  else if err = MTN_ERROR_FILTER_INIT_FAILED then some "Filter initialization failed"
  else if err = MTN_ERROR_IMAGE_SAVE_FAILED then some "Image save failed"
  else if err = MTN_ERROR_BUFFER_TOO_SMALL then some "Buffer too small"
  else some "Unknown error"

/-- The 13 codes the enum `MtnError` defines. -/
def defined_error_codes : List Int :=
  [MTN_SUCCESS, MTN_ERROR_GENERIC, MTN_ERROR_INVALID_ARG, MTN_ERROR_OUT_OF_MEMORY,
   MTN_ERROR_FILE_NOT_FOUND, MTN_ERROR_FILE_CREATE_FAILED, MTN_ERROR_CODEC_NOT_FOUND,
   MTN_ERROR_CODEC_OPEN_FAILED, MTN_ERROR_STREAM_NOT_FOUND, MTN_ERROR_DECODE_FAILED,
   MTN_ERROR_FILTER_INIT_FAILED, MTN_ERROR_IMAGE_SAVE_FAILED, MTN_ERROR_BUFFER_TOO_SMALL]

/-! ## C library functions used by `mtn_thumbnail.c` -/

/-- The C library's `tolower` in the "C" locale, on character codes. -/
def tolower (c : Nat) : Nat :=
  if 65 ≤ c ∧ c ≤ 90 then c + 32 else c

/-- The C library's `strrchr`: the suffix that starts at the last occurrence
of `ch`, `none` (`NULL`) when `ch` does not occur. -/
def strrchr : CString → Char → Option CString
  | [], _ => none
  | c :: cs, ch =>
    match strrchr cs ch with
    | some r => some r
    | none => if c = ch then some (c :: cs) else none

/-- The C library's `strcasecmp`: the difference of the lower-cased codes at
the first position where the strings differ, the end of a string counting as
the code 0. -/
def strcasecmp : CString → CString → Int
  | [], [] => 0
  | [], b :: _ => 0 - (tolower b.toNat : Int)
  | a :: _, [] => (tolower a.toNat : Int)
  | a :: s1, b :: s2 =>
    if tolower a.toNat = tolower b.toNat then strcasecmp s1 s2
    else (tolower a.toNat : Int) - (tolower b.toNat : Int)

/-- The C library's `isspace` in the "C" locale. -/
def isspace (c : Char) : Bool :=
  c.toNat = 32 || (9 ≤ c.toNat && c.toNat ≤ 13)

/-- The C library's `isdigit`. -/
def isdigit (c : Char) : Bool :=
  48 ≤ c.toNat && c.toNat ≤ 57

/-- The value of the longest prefix of decimal digits of a string. -/
def digits_value (s : CString) : Nat :=
  (s.takeWhile isdigit).foldl (fun acc c => acc * 10 + (c.toNat - 48)) 0

/-- The C library's `strtol(s, &tail, 10)` for a `long` of `long_bits` bits:
white space is skipped, an optional sign is read, then the longest run of
decimal digits; the value is clamped to the range of `long`; a string without
digits gives 0. The `tail` pointer, which the caller only uses to decide
whether to log, is not modelled. -/
def strtol (long_bits : Nat) (s : CString) : Int :=
  let s1 := s.dropWhile isspace
  let v : Int :=
    match s1 with
    | '-' :: t => - (digits_value t : Int)
    | '+' :: t => (digits_value t : Int)
    | _ => (digits_value s1 : Int)
  if v > 2 ^ (long_bits - 1) - 1 then 2 ^ (long_bits - 1) - 1
  else if v < - 2 ^ (long_bits - 1) then - 2 ^ (long_bits - 1)
  else v

/-- The conversion of a `long` to the 32-bit `int` field it is assigned to. -/
def long_to_int (v : Int) : Int :=
  (v + 2 ^ 31) % 2 ^ 32 - 2 ^ 31

/-- The function `av_toupper` of libavutil, on character codes. -/
def av_toupper (c : Nat) : Nat :=
  if 97 ≤ c ∧ c ≤ 122 then c - 32 else c

/-- The call `av_dict_get(m, key, NULL, 0)` of libavutil: the value of the
first entry whose key equals `key` up to ASCII case, `none` when there is none. -/
def av_dict_get (m : List (CString × CString)) (key : CString) : Option CString :=
  (m.find? (fun e => e.1.map (fun c => av_toupper c.toNat)
      == key.map (fun c => av_toupper c.toNat))).map (fun e => e.2)

/-- The function `av_q2d` of libavutil (a zero denominator is not modelled). -/
def av_q2d (num den : Int) : ℚ :=
  (num : ℚ) / (den : ℚ)

/-! ## The external collaborators -/

/-- The libav calls of `thumbnail_open_file` and `thumbnail_init_decoder`. A
result `none` stands for the failure value the caller tests for.
* `avformat_open_input ps filename`: the opened container, `none` for a
  non-zero return (the library then frees `*ps` and sets it to `NULL`);
* `avformat_find_stream_info fc`: the container with its stream information,
  `none` for a negative return;
* `avcodec_alloc_context3`: the fresh codec context, `none` for `NULL`;
* `avcodec_parameters_to_context cc par`: `none` for a negative return;
* `avcodec_find_decoder id`: the decoder, `none` for `NULL`;
* `avcodec_open2 cc codec`: `none` for a negative return. -/
structure Libav where
  avformat_open_input : Option AVFormatContext → CString → Option AVFormatContext
  avformat_find_stream_info : AVFormatContext → Option AVFormatContext
  avcodec_alloc_context3 : Option AVCodecContext
  avcodec_parameters_to_context : AVCodecContext → AVCodecParameters → Option AVCodecContext
  avcodec_find_decoder : Int → Option Handle
  avcodec_open2 : AVCodecContext → Handle → Option AVCodecContext

/-- The calls into libav, GD and stdio that release or write something, as
they are recorded in the order the code makes them (`av_log` is left out). -/
inductive LibCall where
  | fopen (filename : CString) (mode : String)
  | gdImagePng (im : Handle) (fp : Handle)
  | gdImageJpeg (im : Handle) (fp : Handle) (quality : Int)
  | fclose (fp : Handle)
  | avfilter_graph_free (graph : Handle)
  | avcodec_free_context
  | avformat_close_input
  | av_frame_free (frame : Handle)
  | av_free (buffer : Handle)
  | sws_freeContext (sws : Handle)
  | gdImageDestroy (im : Handle)
deriving DecidableEq, Repr

/-! ## `mtn_thumbnail.c` -/

/-- The cleanup step "Free filter graph". -/
def cleanup_filter_graph (c : ThumbnailContext) : ThumbnailContext × List LibCall :=
  match c.filter_graph with
  | some g =>
    ({ c with filter_graph := none, buffersink_ctx := none, buffersrc_ctx := none },
      [LibCall.avfilter_graph_free g])
  | none => (c, [])

/-- The cleanup step "Free codec context": both branches of the test of
`codec_ctx_opened` make the same call. -/
def cleanup_codec_ctx (c : ThumbnailContext) : ThumbnailContext × List LibCall :=
  match c.codec_ctx with
  | some _ =>
    if c.codec_ctx_opened ≠ 0 then ({ c with codec_ctx := none }, [LibCall.avcodec_free_context])
    else ({ c with codec_ctx := none }, [LibCall.avcodec_free_context])
  | none => (c, [])

/-- The cleanup step "Free format context", guarded by `format_ctx_opened`. -/
def cleanup_format_ctx (c : ThumbnailContext) : ThumbnailContext × List LibCall :=
  match c.format_ctx with
  | some _ =>
    if c.format_ctx_opened ≠ 0 then ({ c with format_ctx := none }, [LibCall.avformat_close_input])
    else (c, [])
  | none => (c, [])

/-- The cleanup step "Free frames", first half. -/
def cleanup_frame (c : ThumbnailContext) : ThumbnailContext × List LibCall :=
  match c.frame with
  | some f => ({ c with frame := none }, [LibCall.av_frame_free f])
  | none => (c, [])

/-- The cleanup step "Free frames", second half. -/
def cleanup_frame_rgb (c : ThumbnailContext) : ThumbnailContext × List LibCall :=
  match c.frame_rgb with
  | some f => ({ c with frame_rgb := none }, [LibCall.av_frame_free f])
  | none => (c, [])

/-- The cleanup step "Free RGB buffer". -/
def cleanup_rgb_buffer (c : ThumbnailContext) : ThumbnailContext × List LibCall :=
  match c.rgb_buffer with
  | some b => ({ c with rgb_buffer := none }, [LibCall.av_free b])
  | none => (c, [])

/-- The cleanup step "Free SwsContext". -/
def cleanup_sws_ctx (c : ThumbnailContext) : ThumbnailContext × List LibCall :=
  match c.sws_ctx with
  | some s => ({ c with sws_ctx := none }, [LibCall.sws_freeContext s])
  | none => (c, [])

/-- The cleanup step "Free GD images", first half. -/
def cleanup_out_image (c : ThumbnailContext) : ThumbnailContext × List LibCall :=
  match c.out_image with
  | some im => ({ c with out_image := none }, [LibCall.gdImageDestroy im])
  | none => (c, [])

/-- The cleanup step "Free GD images", second half. -/
def cleanup_shadow_image (c : ThumbnailContext) : ThumbnailContext × List LibCall :=
  match c.shadow_image with
  | some im => ({ c with shadow_image := none }, [LibCall.gdImageDestroy im])
  | none => (c, [])

/-- The cleanup step "Close info file". -/
def cleanup_info_fp (c : ThumbnailContext) : ThumbnailContext × List LibCall :=
  match c.info_fp with
  | some fp => ({ c with info_fp := none }, [LibCall.fclose fp])
  | none => (c, [])

/-- Run one cleanup step after the steps already run, appending its calls. -/
def and_then (acc : ThumbnailContext × List LibCall)
    (step : ThumbnailContext → ThumbnailContext × List LibCall) :
    ThumbnailContext × List LibCall :=
  ((step acc.1).1, acc.2 ++ (step acc.1).2)

/-- The function `thumbnail_context_cleanup` of `mtn_thumbnail.c`: nothing for
a `NULL` context, otherwise the steps of the body in source order. The result
is the context after the call and the release calls made, in order. -/
def thumbnail_context_cleanup : Option ThumbnailContext → Option ThumbnailContext × List LibCall
  | none => (none, [])
  | some c =>
    let r := and_then (and_then (and_then (and_then (and_then (and_then (and_then (and_then
      (and_then (cleanup_filter_graph c) cleanup_codec_ctx) cleanup_format_ctx) cleanup_frame)
      cleanup_frame_rgb) cleanup_rgb_buffer) cleanup_sws_ctx) cleanup_out_image)
      cleanup_shadow_image) cleanup_info_fp
    (some r.1, r.2)

/-- The stream index `thumbnail_open_file` chooses. -/
def chosen_stream_index (select_stream : Int) : Int :=
  if select_stream ≥ 0 then select_stream else 0

/-- The function `thumbnail_open_file` of `mtn_thumbnail.c`: the return value
and the context after the call. The cast `(unsigned int)ctx->video_index` is
applied to a value already known not to be negative. -/
def thumbnail_open_file (av : Libav) (ctx : Option ThumbnailContext)
    (filename : Option CString) (select_stream : Int) : Int × Option ThumbnailContext :=
  match ctx, filename with
  | some c, some name =>
    match av.avformat_open_input c.format_ctx name with
    | none => (-1, some { c with format_ctx := none })
    | some fc0 =>
      let fc1 := { fc0 with flags := fc0.flags ||| AVFMT_FLAG_GENPTS }
      let c1 := { c with format_ctx := some fc1, format_ctx_opened := 1 }
      match av.avformat_find_stream_info fc1 with
      | none => (-1, some c1)
      | some fc =>
        let idx := chosen_stream_index select_stream
        let c2 := { c1 with format_ctx := some fc, video_index := idx }
        if h : idx < 0 ∨ fc.streams.length ≤ idx.toNat then (-1, some c2)
        else
          let stream := fc.streams.get ⟨idx.toNat, by omega⟩
          if stream.codecpar.codec_type ≠ AVMEDIA_TYPE_VIDEO then (-1, some c2)
          else (0, some { c2 with time_base := av_q2d stream.time_base_num stream.time_base_den })
  | _, _ => (-1, ctx)

/-- The array access `fc->streams[i]`; `none` when `i` is out of bounds, where
the C code has no defined behaviour. -/
def stream_at (fc : AVFormatContext) (i : Int) : Option AVStream :=
  if 0 ≤ i then fc.streams[i.toNat]? else none

/-- The function `thumbnail_init_decoder` of `mtn_thumbnail.c` for a `long` of
`long_bits` bits: the return value and the context after the call; `none` when
`ctx->video_index` is not an index of `streams` (undefined behaviour). A freed
codec context is `NULL` afterwards (`avcodec_free_context` clears the pointer). -/
def thumbnail_init_decoder (av : Libav) (long_bits : Nat) (ctx : Option ThumbnailContext) :
    Option (Int × Option ThumbnailContext) :=
  match ctx with
  | none => some (-1, none)
  | some c =>
    match c.format_ctx with
    | none => some (-1, some c)
    | some fc =>
      match stream_at fc c.video_index with
      | none => none
      | some stream =>
        match av.avcodec_alloc_context3 with
        | none => some (-1, some { c with codec_ctx := none })
        | some cc0 =>
          match av.avcodec_parameters_to_context cc0 stream.codecpar with
          | none => some (-1, some { c with codec_ctx := none })
          | some cc1 =>
            match av.avcodec_find_decoder cc1.codec_id with
            | none => some (-1, some { c with codec_ctx := some cc1 })
            | some codec =>
              match av.avcodec_open2 cc1 codec with
              | none => some (-1, some { c with codec_ctx := none })
              | some cc =>
                let c1 := { c with codec_ctx := some cc, codec_ctx_opened := 1, rotation := 0 }
                match av_dict_get stream.metadata "rotate".toList with
                | some value =>
                  some (0, some { c1 with rotation := long_to_int (strtol long_bits value) })
                | none => some (0, some c1)

/-- The function `thumbnail_save_image` of `mtn_thumbnail.c`, over the outcome
`fopen` of opening a file (`none` for `NULL`): the return value and the calls
made, in order. Nothing is written through `ctx`. -/
def thumbnail_save_image (fopen : CString → String → Option Handle)
    (ctx : Option ThumbnailContext) (filename : Option CString) (quality : Int) :
    Int × List LibCall :=
  match ctx, filename with
  | some c, some name =>
    match c.out_image with
    | none => (-1, [])
    | some im =>
      match fopen name "wb" with
      | none => (-1, [LibCall.fopen name "wb"])
      | some fp =>
        match strrchr name '.' with
        | some ext =>
          if strcasecmp ext ".png".toList = 0 then
            (0, [LibCall.fopen name "wb", LibCall.gdImagePng im fp, LibCall.fclose fp])
          else
            (0, [LibCall.fopen name "wb", LibCall.gdImageJpeg im fp quality, LibCall.fclose fp])
        | none =>
          (0, [LibCall.fopen name "wb", LibCall.gdImageJpeg im fp quality, LibCall.fclose fp])
  | _, _ => (-1, [])

/-- The function `thumbnail_calc_dimensions` of `mtn_thumbnail.c`. Each of the
four `int*` arguments is an `Option Int`: `none` is `NULL`, `some v` a pointer
to a cell that holds `v` (the four cells are distinct). The result is the
content of the four cells after the call; it is `none` when `ctx->codec_ctx`
is `NULL`, which the body dereferences without a test. -/
def thumbnail_calc_dimensions (ctx : Option ThumbnailContext)
    (width height columns rows : Option Int) :
    Option (Option Int × Option Int × Option Int × Option Int) :=
  match ctx, width, height, columns, rows with
  | some c, some _, some _, some col, some row =>
    match c.codec_ctx with
    | none => none
    | some cc =>
      let col1 := if col ≤ 0 then 3 else col
      let row1 := if row ≤ 0 then 0 else row
      some (some cc.width, some cc.height, some col1, some row1)
  | _, _, _, _, _ => some (width, height, columns, rows)

/-- The context after `thumbnail_save_image`, along the paths of its body: the
body reads `ctx->out_image` and assigns to no field of `*ctx`. -/
def thumbnail_save_image_ctx (fopen : CString → String → Option Handle)
    (ctx : Option ThumbnailContext) (filename : Option CString) (_quality : Int) :
    Option ThumbnailContext :=
  match ctx, filename with
  | some c, some name =>
    match c.out_image with
    | none => some c
    | some _ =>
      match fopen name "wb" with
      | none => some c
      | some _ => some c
  | _, _ => ctx

/-- The numbers `thumbnail_init_filters` formats into the arguments of the
buffer source, as far as the model tracks them (the pixel format and the
sample aspect ratio of the codec context are not tracked). -/
structure BufferArgs where
  width : Int
  height : Int
  time_base_num : Int
  time_base_den : Int
deriving DecidableEq, Repr

/-- The libavfilter calls of `thumbnail_init_filters`. A result `none` or
`false` stands for the failure value the caller tests for.
* `avfilter_graph_alloc`: the graph, `none` for `NULL`;
* `create_buffersrc graph args`: `avfilter_graph_create_filter` for the filter
  "buffer"; `none` for a negative return (the library then leaves `NULL` in
  the pointer);
* `create_buffersink graph`: the same for the filter "buffersink";
* `avfilter_inout_alloc_outputs`, `avfilter_inout_alloc_inputs`: the two
  in/out lists, `none` for `NULL`; they are freed again inside the call;
* `avfilter_graph_parse_ptr graph filters`: `false` for a negative return;
* `avfilter_graph_config graph`: `false` for a negative return. -/
structure Libavfilter where
  avfilter_graph_alloc : Option Handle
  create_buffersrc : Handle → BufferArgs → Option Handle
  create_buffersink : Handle → Option Handle
  avfilter_inout_alloc_outputs : Option Handle
  avfilter_inout_alloc_inputs : Option Handle
  avfilter_graph_parse_ptr : Handle → CString → Bool
  avfilter_graph_config : Handle → Bool

/-- The function `thumbnail_init_filters` of `mtn_thumbnail.c`: the return
value and the context after the call; `none` when the body reads
`ctx->format_ctx->streams[ctx->video_index]` without there being such a stream
(undefined behaviour). -/
def thumbnail_init_filters (avf : Libavfilter) (ctx : Option ThumbnailContext)
    (filter_str : Option CString) : Option (Int × Option ThumbnailContext) :=
  match ctx, filter_str with
  | some c, some str =>
    match c.codec_ctx with
    | none => some (0, ctx)
    | some cc =>
      match avf.avfilter_graph_alloc with
      | none => some (-1, some { c with filter_graph := none })
      | some g =>
        let c1 := { c with filter_graph := some g }
        match c.format_ctx.bind (fun fc => stream_at fc c.video_index) with
        | none => none
        | some st =>
          match avf.create_buffersrc g
              { width := cc.width, height := cc.height,
                time_base_num := st.time_base_num, time_base_den := st.time_base_den } with
          | none => some (-1, some { c1 with buffersrc_ctx := none })
          | some src =>
            let c2 := { c1 with buffersrc_ctx := some src }
            match avf.create_buffersink g with
            | none => some (-1, some { c2 with buffersink_ctx := none })
            | some sink =>
              let c3 := { c2 with buffersink_ctx := some sink }
              match avf.avfilter_inout_alloc_outputs, avf.avfilter_inout_alloc_inputs with
              | some _, some _ =>
                if avf.avfilter_graph_parse_ptr g str = false then some (-1, some c3)
                else if avf.avfilter_graph_config g = false then some (-1, some c3)
                else some (0, some { c3 with filter_graph_initialized := 1 })
              | _, _ => some (-1, some c3)
  | _, _ => some (0, ctx)

/-- The calls of `thumbnail_alloc_frames` into libavutil and libswscale.
* `av_frame_alloc n`: the outcome of the `n`-th call of the function inside
  `thumbnail_alloc_frames` (0 for `frame`, 1 for `frame_rgb`), `none` for `NULL`;
* `av_image_get_buffer_size width height`: the size for `AV_PIX_FMT_RGB24`,
  negative on failure;
* `av_malloc size`: `none` for `NULL`;
* `av_image_fill_arrays frame buffer width height`: negative on failure;
* `sws_getContext width height pix_fmt`: `none` for `NULL`. -/
structure Libavframe where
  av_frame_alloc : Nat → Option Handle
  av_image_get_buffer_size : Int → Int → Int
  av_malloc : Int → Option Handle
  av_image_fill_arrays : Handle → Handle → Int → Int → Int
  sws_getContext : Int → Int → Int → Option Handle

/-- The function `thumbnail_alloc_frames` of `mtn_thumbnail.c`: the return
value and the context after the call. -/
def thumbnail_alloc_frames (fr : Libavframe) (ctx : Option ThumbnailContext)
    (width height pix_fmt : Int) : Int × Option ThumbnailContext :=
  match ctx with
  | none => (-1, none)
  | some c =>
    match fr.av_frame_alloc 0 with
    | none => (-1, some { c with frame := none })
    | some f =>
      let c1 := { c with frame := some f }
      match fr.av_frame_alloc 1 with
      | none => (-1, some { c1 with frame_rgb := none })
      | some frgb =>
        let c2 := { c1 with frame_rgb := some frgb }
        let bufsize := fr.av_image_get_buffer_size width height
        if bufsize < 0 then (-1, some c2)
        else
          match fr.av_malloc bufsize with
          | none => (-1, some { c2 with rgb_buffer := none })
          | some buf =>
            let c3 := { c2 with rgb_buffer := some buf }
            if fr.av_image_fill_arrays frgb buf width height < 0 then (-1, some c3)
            else
              match fr.sws_getContext width height pix_fmt with
              | none => (-1, some { c3 with sws_ctx := none })
              | some s => (0, some { c3 with sws_ctx := some s })

/-- The release order of the claim: the reverse of the order in which
`thumbnail_open_file`, `thumbnail_init_decoder`, `thumbnail_init_filters` and
`thumbnail_alloc_frames` acquire the handles, that is scaler context, RGB
buffer, RGB frame, decode frame, filter graph, codec context, format context. -/
def reverse_acquisition_order (c : ThumbnailContext) : List LibCall :=
  c.sws_ctx.toList.map LibCall.sws_freeContext
    ++ c.rgb_buffer.toList.map LibCall.av_free
    ++ c.frame_rgb.toList.map LibCall.av_frame_free
    ++ c.frame.toList.map LibCall.av_frame_free
    ++ c.filter_graph.toList.map LibCall.avfilter_graph_free
    ++ (if c.codec_ctx.isSome then [LibCall.avcodec_free_context] else [])
    ++ (if c.format_ctx.isSome then [LibCall.avformat_close_input] else [])

/-! ## The output format in the words of the specification -/

/-- Two characters are the same letter up to case. -/
def same_ignoring_case (a b : Char) : Prop :=
  a.toLower = b.toLower

/-- The claim's condition on a file name: the suffix that starts at the last
`'.'` of the name equals ".png" ignoring letter case. -/
def png_name (name : CString) : Prop :=
  ∃ pre suf : CString, name = pre ++ '.' :: suf ∧ '.' ∉ suf ∧
    List.Forall₂ same_ignoring_case ('.' :: suf) ".png".toList

/-! ## Concrete states used in examples -/

/-- A video stream of 1920x1080 with time base 1/25 and no metadata. -/
def sample_video_stream : AVStream :=
  { codecpar := { codec_type := AVMEDIA_TYPE_VIDEO, codec_id := 27, width := 1920, height := 1080 },
    time_base_num := 1, time_base_den := 25, metadata := [] }

/-- A context on which a container of `secs` seconds has been opened and its
decoder initialised; no canvas exists. -/
def opened_context (secs : Int) : ThumbnailContext :=
  { ThumbnailContext.zeroed with
    format_ctx := some { flags := AVFMT_FLAG_GENPTS, duration := secs * AV_TIME_BASE,
                         streams := [sample_video_stream] }
    codec_ctx := some { codec_id := 27, width := 1920, height := 1080 }
    time_base := 1 / 25
    format_ctx_opened := 1
    codec_ctx_opened := 1 }

/-- The build without any of the tested preprocessor symbols (a Unix build). -/
def unix_build : BuildConfig :=
  { fontname_defined := none, apple := false, win32 := false }

/-- The default options with `-B 8 -E 3`. -/
def trimmed_options : MtnContext :=
  match mtn_context_init unix_build (some MtnContext.zeroed) with
  | some o => { o with B_begin := 8, E_end := 3 }
  | none => MtnContext.zeroed

/-- A container with one video stream that opens under any name, with a
decoder for every codec. -/
def libav_one_video : Libav :=
  { avformat_open_input := fun _ _ => some { flags := 0, duration := 120 * AV_TIME_BASE,
                                             streams := [sample_video_stream] }
    avformat_find_stream_info := fun fc => some fc
    avcodec_alloc_context3 := some { codec_id := 0, width := 0, height := 0 }
    avcodec_parameters_to_context := fun _ par =>
      some { codec_id := par.codec_id, width := par.width, height := par.height }
    avcodec_find_decoder := fun id => some id.toNat
    avcodec_open2 := fun cc _ => some cc }

/-- No source can be opened. -/
def libav_missing_file : Libav :=
  { libav_one_video with avformat_open_input := fun _ _ => none }

/-- An audio stream (`AVMEDIA_TYPE_AUDIO` is 1). -/
def sample_audio_stream : AVStream :=
  { codecpar := { codec_type := 1, codec_id := 86018, width := 0, height := 0 },
    time_base_num := 1, time_base_den := 48000, metadata := [] }

/-- The source opens and holds a single audio stream. -/
def libav_audio_only : Libav :=
  { libav_one_video with
    avformat_open_input := fun _ _ => some { flags := 0, duration := 120 * AV_TIME_BASE,
                                             streams := [sample_audio_stream] } }

/-- The source opens and holds a video stream, for whose codec there is no
decoder. -/
def libav_no_decoder : Libav :=
  { libav_one_video with avcodec_find_decoder := fun _ => none }

/-- The kinds of fatal failure the specification names for `open`. -/
inductive OpenErrorKind where
  | NotFound
  | NoVideoStream
  | CodecUnsupported
deriving DecidableEq, Repr

/-- A context whose `format_ctx` was allocated by the caller and never opened
(`format_ctx_opened` is 0). -/
def preallocated_context : ThumbnailContext :=
  { ThumbnailContext.zeroed with format_ctx := some { flags := 0, duration := 0, streams := [] } }

/-- A video stream that carries the tag `rotate=45`. -/
def rotate45_stream : AVStream :=
  { sample_video_stream with metadata := [("rotate".toList, "45".toList)] }

/-- A 120 s container with that stream. -/
def rotate45_format : AVFormatContext :=
  { flags := AVFMT_FLAG_GENPTS, duration := 120 * AV_TIME_BASE, streams := [rotate45_stream] }

/-- The context after `thumbnail_open_file` on that container. -/
def rotate45_context : ThumbnailContext :=
  { ThumbnailContext.zeroed with
    format_ctx := some rotate45_format
    time_base := 1 / 25
    format_ctx_opened := 1 }

/-- The context after `thumbnail_init_decoder` on `rotate45_context`. -/
def rotate45_decoded : ThumbnailContext :=
  { rotate45_context with
    codec_ctx := some { codec_id := 27, width := 1920, height := 1080 }
    codec_ctx_opened := 1
    rotation := 45 }

/-- The decimal numeral of a natural number, most significant digit first. -/
def decimal (n : Nat) : CString :=
  if n = 0 then ['0'] else (Nat.digits 10 n).reverse.map (fun d => Char.ofNat (48 + d))

/-- A context after a successful open, decoder and filter set-up and frame
allocation, with a finished canvas. -/
def full_context : ThumbnailContext :=
  { opened_context 120 with
    frame := some 1
    frame_rgb := some 2
    rgb_buffer := some 3
    sws_ctx := some 4
    buffersink_ctx := some 5
    buffersrc_ctx := some 6
    filter_graph := some 7
    out_image := some 8
    filter_graph_initialized := 1 }

/-- A libavfilter in which every call succeeds: graph 7, source 6, sink 5. -/
def libavfilter_ok : Libavfilter :=
  { avfilter_graph_alloc := some 7
    create_buffersrc := fun _ _ => some 6
    create_buffersink := fun _ => some 5
    avfilter_inout_alloc_outputs := some 20
    avfilter_inout_alloc_inputs := some 21
    avfilter_graph_parse_ptr := fun _ _ => true
    avfilter_graph_config := fun _ => true }

/-- Allocation calls that all succeed: frames 1 and 2, buffer 3, scaler 4. -/
def libavframe_ok : Libavframe :=
  { av_frame_alloc := fun n => some (n + 1)
    av_image_get_buffer_size := fun w h => 3 * w * h
    av_malloc := fun _ => some 3
    av_image_fill_arrays := fun _ _ w h => 3 * w * h
    sws_getContext := fun _ _ _ => some 4 }

/-- The context after `thumbnail_open_file` on `libav_one_video`. -/
def set_up_opened : ThumbnailContext :=
  { ThumbnailContext.zeroed with
    format_ctx := some { flags := 0 ||| AVFMT_FLAG_GENPTS, duration := 120 * AV_TIME_BASE,
                         streams := [sample_video_stream] }
    format_ctx_opened := 1
    video_index := 0
    time_base := av_q2d 1 25 }

/-- The context after `thumbnail_init_decoder` on `set_up_opened`. -/
def set_up_decoded : ThumbnailContext :=
  { set_up_opened with
    codec_ctx := some { codec_id := 27, width := 1920, height := 1080 }
    codec_ctx_opened := 1
    rotation := 0 }

/-- The context after `thumbnail_init_filters` on `set_up_decoded`. -/
def set_up_filtered : ThumbnailContext :=
  { set_up_decoded with
    filter_graph := some 7
    buffersrc_ctx := some 6
    buffersink_ctx := some 5
    filter_graph_initialized := 1 }

/-- The context after `thumbnail_alloc_frames` on `set_up_filtered`. -/
def set_up_done : ThumbnailContext :=
  { set_up_filtered with
    frame := some 1
    frame_rgb := some 2
    rgb_buffer := some 3
    sws_ctx := some 4 }

/-! ## `mtn_context_cleanup` -/

/-- The calls to `free` that `mtn_context_cleanup` makes, by what is freed: a
string, or the array `movie_ext` itself (given by its elements). -/
inductive FreeCall where
  | string (s : String)
  | ext_array (exts : List String)
deriving DecidableEq, Repr

/-- The cleanup of `argv0`. -/
def cleanup_argv0 (c : MtnContext) : MtnContext × List FreeCall :=
  match c.argv0 with
  | some s => ({ c with argv0 := none }, [FreeCall.string s])
  | none => (c, [])

/-- The cleanup of `x_basename_custom`. -/
def cleanup_x_basename_custom (c : MtnContext) : MtnContext × List FreeCall :=
  match c.x_basename_custom with
  | some s => ({ c with x_basename_custom := none }, [FreeCall.string s])
  | none => (c, [])

/-- The cleanup of `_filters`. -/
def cleanup_filters (c : MtnContext) : MtnContext × List FreeCall :=
  match c._filters with
  | some s => ({ c with _filters := none }, [FreeCall.string s])
  | none => (c, [])

/-- The cleanup of `_filter_color_primaries`. -/
def cleanup_filter_color_primaries (c : MtnContext) : MtnContext × List FreeCall :=
  match c._filter_color_primaries with
  | some s => ({ c with _filter_color_primaries := none }, [FreeCall.string s])
  | none => (c, [])

/-- The step "Free movie extensions array": the loop frees the elements up to
the terminating `NULL` in order, then the array is freed. -/
def cleanup_movie_ext (c : MtnContext) : MtnContext × List FreeCall :=
  match c.movie_ext with
  | some exts =>
    ({ c with movie_ext := none }, exts.map FreeCall.string ++ [FreeCall.ext_array exts])
  | none => (c, [])

/-- The function `mtn_context_cleanup` of `mtn_context.c`: nothing for a `NULL`
context, otherwise the five steps of the body in source order. The result is
the context after the call and the calls to `free`, in order. -/
def mtn_context_cleanup : Option MtnContext → Option MtnContext × List FreeCall
  | none => (none, [])
  | some c =>
    let r1 := cleanup_argv0 c
    let r2 := cleanup_x_basename_custom r1.1
    let r3 := cleanup_filters r2.1
    let r4 := cleanup_filter_color_primaries r3.1
    let r5 := cleanup_movie_ext r4.1
    (some r5.1, r1.2 ++ r2.2 ++ r3.2 ++ r4.2 ++ r5.2)

/-- The default options with a program name, a filter string and an extension
list set by the option parser. -/
def parsed_options : MtnContext :=
  { trimmed_options with
    argv0 := some "mtn"
    _filters := some "hflip"
    movie_ext := some ["mkv", "mp4"] }

/-! ## Theorems -/

/-- The placeholder returns `0` exactly when the context and its codec context
are present, `-1` otherwise, and hands the context back untouched. -/
theorem decode_and_assemble_eq (ctx : Option ThumbnailContext) (columns rows step : Int) :
    thumbnail_decode_and_assemble ctx columns rows step =
      (if (ctx.bind (fun c => c.codec_ctx)).isSome then 0 else -1, ctx) := by
  unfold thumbnail_decode_and_assemble
  cases ctx with
  | none => rfl
  | some c => cases h : c.codec_ctx <;> simp [h]

/-- The specification's auto-mode targets for a 120 s window and a 3x2 grid. -/
theorem midpoint_targets_120 : midpoint_targets 0 120 3 2 = [10, 30, 50, 70, 90, 110] := by
  simp [midpoint_targets, List.range_succ]
  norm_num

/-- The specification's auto mode asks for `columns*rows` targets. -/
theorem midpoint_targets_length (start stop : ℚ) (columns rows : Int) :
    (midpoint_targets start stop columns rows).length = (columns * rows).toNat := by
  simp [midpoint_targets]

/-- The specification's step mode asks for `ceil((stop-start)/step)` targets. -/
theorem step_targets_length (start stop : ℚ) (step : Int) :
    (step_targets start stop step).length = ⌈(stop - start) / (step : ℚ)⌉.toNat := by
  simp [step_targets]

/-- C1 on the code: the body of `thumbnail_decode_and_assemble` is the
unimplemented placeholder of the "main decoding and thumbnail assembly loop".
On an initialised 120 s video the call with `columns = 3, rows = 2, step = 0`
returns `0` with the context untouched, which is also the outcome of the call
with `columns = 1, rows = 1`; the target lists the claim asks for differ (six
targets `10, 30, 50, 70, 90, 110` against one), so no reading of the call's
outcome yields the `columns*rows` midpoint targets. -/
theorem C1_auto_targets_counterexample :
    thumbnail_decode_and_assemble (some (opened_context 120)) 3 2 0
        = (0, some (opened_context 120)) ∧
    thumbnail_decode_and_assemble (some (opened_context 120)) 1 1 0
        = thumbnail_decode_and_assemble (some (opened_context 120)) 3 2 0 ∧
    midpoint_targets 0 120 3 2 = [10, 30, 50, 70, 90, 110] ∧
    (midpoint_targets 0 120 1 1).length = 1 ∧
    ¬ ∃ targets_of : Int × Option ThumbnailContext → List ℚ,
        ∀ columns rows : Int, 0 < columns → 0 < rows →
          targets_of (thumbnail_decode_and_assemble (some (opened_context 120)) columns rows 0)
            = midpoint_targets 0 120 columns rows := by
  refine ⟨rfl, rfl, midpoint_targets_120, by simp [midpoint_targets], ?_⟩
  rintro ⟨targets_of, h⟩
  have h6 := congrArg List.length (h 3 2 (by decide) (by decide))
  have h1 := congrArg List.length (h 1 1 (by decide) (by decide))
  rw [midpoint_targets_length] at h6 h1
  have hsame : thumbnail_decode_and_assemble (some (opened_context 120)) 1 1 0
      = thumbnail_decode_and_assemble (some (opened_context 120)) 3 2 0 := rfl
  rw [hsame, h6] at h1
  revert h1
  decide

/-- The specification's step-mode targets for a 120 s window and a 30 s step. -/
theorem step_targets_120_30 : step_targets 0 120 30 = [0, 30, 60, 90] := by
  have h : ⌈((120 : ℚ) - 0) / ((30 : Int) : ℚ)⌉.toNat = 4 := by
    have h4 : ⌈((120 : ℚ) - 0) / ((30 : Int) : ℚ)⌉ = 4 := by norm_num
    rw [h4]
    rfl
  unfold step_targets
  rw [h]
  simp [List.range_succ]
  norm_num

/-- The specification's step-mode targets for a 120 s window and a 60 s step. -/
theorem step_targets_120_60 : step_targets 0 120 60 = [0, 60] := by
  have h : ⌈((120 : ℚ) - 0) / ((60 : Int) : ℚ)⌉.toNat = 2 := by
    have h2 : ⌈((120 : ℚ) - 0) / ((60 : Int) : ℚ)⌉ = 2 := by norm_num
    rw [h2]
    rfl
  unfold step_targets
  rw [h]
  simp [List.range_succ]

/-- C2 on the code: the body of `thumbnail_decode_and_assemble` is the
unimplemented placeholder. On an initialised 120 s video the calls with
`step = 30` and `step = 60` have the same outcome (`0`, context untouched),
while the claim asks for four targets `0, 30, 60, 90` from the first and two
targets `0, 60` from the second; no reading of the outcome yields both. -/
theorem C2_step_targets_counterexample :
    thumbnail_decode_and_assemble (some (opened_context 120)) 3 0 30
        = (0, some (opened_context 120)) ∧
    thumbnail_decode_and_assemble (some (opened_context 120)) 3 0 60
        = thumbnail_decode_and_assemble (some (opened_context 120)) 3 0 30 ∧
    step_targets 0 120 30 = [0, 30, 60, 90] ∧
    step_targets 0 120 60 = [0, 60] ∧
    ¬ ∃ targets_of : Int × Option ThumbnailContext → List ℚ,
        ∀ step : Int, 0 < step →
          targets_of (thumbnail_decode_and_assemble (some (opened_context 120)) 3 0 step)
            = step_targets 0 120 step := by
  refine ⟨rfl, rfl, step_targets_120_30, step_targets_120_60, ?_⟩
  rintro ⟨targets_of, h⟩
  have h30 := h 30 (by decide)
  have h60 := h 60 (by decide)
  have hsame : thumbnail_decode_and_assemble (some (opened_context 120)) 3 0 60
      = thumbnail_decode_and_assemble (some (opened_context 120)) 3 0 30 := rfl
  rw [hsame, h30, step_targets_120_30, step_targets_120_60] at h60
  have hlen := congrArg List.length h60
  revert hlen
  decide

/-- C3 on the code: with a 10 s video, `begin = 8 s` and an end trim of 3 s
the window of the specification is empty (its end is 7 s, its start 8 s), yet
the unimplemented placeholder `thumbnail_decode_and_assemble` on the
initialised decoder returns `0`, the value the header documents for success,
not an error. -/
theorem C3_invalid_range_counterexample :
    (opened_context 10).format_ctx.map duration_seconds = some 10 ∧
    effective_start trimmed_options = 8 ∧
    effective_end trimmed_options 10 = 7 ∧
    effective_end trimmed_options 10 ≤ effective_start trimmed_options ∧
    (thumbnail_decode_and_assemble (some (opened_context 10))
        trimmed_options.c_column trimmed_options.r_row trimmed_options.s_step).1 = 0 := by
  have hs : effective_start trimmed_options = 8 := rfl
  have he : effective_end trimmed_options 10 = 7 := by
    simp [effective_end, trimmed_options, mtn_context_init, GB_C_CUT]
    norm_num
  refine ⟨?_, hs, he, ?_, rfl⟩
  · simp [opened_context, duration_seconds, AV_TIME_BASE]
    norm_num
  · rw [hs, he]
    norm_num

/-- C4: for every build and every prior content of a non-null context,
`mtn_context_init` leaves the fixed default state listed in the claim; two
initialisations from different prior states agree, and initialising twice is
initialising once. -/
theorem C4_mtn_context_init_defaults (cfg : BuildConfig) (prior : MtnContext) :
    ∃ c : MtnContext, mtn_context_init cfg (some prior) = some c ∧
      c.c_column = 3 ∧ c.r_row = 0 ∧ c.s_step = 120 ∧ c.w_width = 1024 ∧ c.h_height = 150 ∧
      c.g_gap = 0 ∧ c.j_quality = 90 ∧ c.D_edge = 12 ∧ c.d_depth = -1 ∧ c.i_info = 1 ∧
      c.I_individual = 0 ∧ c.I_individual_thumbnail = 0 ∧ c.I_individual_original = 0 ∧
      c.I_individual_ignore_grid = 0 ∧ c.t_timestamp = 1 ∧ c.W_overwrite = 1 ∧
      c.L_info_location = 4 ∧ c.L_time_location = 1 ∧ c.z_seek = 0 ∧ c.Z_nonseek = 0 ∧
      c._shadow = -1 ∧ c.k_bcolor = ⟨255, 255, 255⟩ ∧ c.F_ts_color = ⟨255, 255, 255⟩ ∧
      c.F_ts_shadow = ⟨0, 0, 0⟩ ∧ c.F_info_color = ⟨85, 85, 85⟩ ∧
      c.argv0 = none ∧ c.x_basename_custom = none ∧ c._filters = none ∧
      c._filter_color_primaries = none ∧ c.movie_ext = none ∧ c._options = none ∧
      (∀ prior2 : MtnContext,
        mtn_context_init cfg (some prior2) = mtn_context_init cfg (some prior)) ∧
      mtn_context_init cfg (mtn_context_init cfg (some prior))
        = mtn_context_init cfg (some prior) :=
  ⟨_, rfl, rfl, rfl, rfl, rfl, rfl, rfl, rfl, rfl, rfl, rfl, rfl, rfl, rfl, rfl, rfl, rfl,
    rfl, rfl, rfl, rfl, rfl, rfl, rfl, rfl, rfl, rfl, rfl, rfl, rfl, rfl, rfl,
    fun _ => rfl, rfl⟩

/-- A chain of `if`s whose branches are all non-`NULL` is non-`NULL`. -/
theorem ite_some_ne_none {α : Type} (p : Prop) [Decidable p] (a : α) (r : Option α)
    (h : r ≠ none) : (if p then some a else r) ≠ none := by
  by_cases hp : p
  · rw [if_pos hp]; exact Option.some_ne_none a
  · rw [if_neg hp]; exact h

/-- C5: `mtn_error_string` maps the 13 defined codes `0 .. -12` to their own
messages, which are pairwise distinct and none of which is "Unknown error";
every other integer gives "Unknown error"; the result is never `NULL`. -/
theorem C5_mtn_error_string_total :
    (mtn_error_string 0 = some "Success" ∧
     mtn_error_string (-1) = some "Generic error" ∧
     mtn_error_string (-2) = some "Invalid argument" ∧
     mtn_error_string (-3) = some "Out of memory" ∧
     mtn_error_string (-4) = some "File not found" ∧
     mtn_error_string (-5) = some "File creation failed" ∧
     mtn_error_string (-6) = some "Codec not found" ∧
     mtn_error_string (-7) = some "Codec open failed" ∧
     mtn_error_string (-8) = some "Stream not found" ∧
     mtn_error_string (-9) = some "Decode failed" ∧
     mtn_error_string (-10) = some "Filter initialization failed" ∧
     mtn_error_string (-11) = some "Image save failed" ∧
     mtn_error_string (-12) = some "Buffer too small") ∧
    defined_error_codes = [0, -1, -2, -3, -4, -5, -6, -7, -8, -9, -10, -11, -12] ∧
    (defined_error_codes.map mtn_error_string).Nodup ∧
    (∀ err : Int, -12 ≤ err → err ≤ 0 → mtn_error_string err ≠ some "Unknown error") ∧
    (∀ err : Int, err < -12 ∨ 0 < err → mtn_error_string err = some "Unknown error") ∧
    (∀ err : Int, mtn_error_string err ≠ none) := by
  refine ⟨by decide, by decide, by decide, ?_, ?_, ?_⟩
  · intro err h1 h2
    interval_cases err <;> decide
  · intro err h
    unfold mtn_error_string
    iterate 13 (rw [if_neg (by
      simp only [MTN_SUCCESS, MTN_ERROR_GENERIC, MTN_ERROR_INVALID_ARG, MTN_ERROR_OUT_OF_MEMORY,
        MTN_ERROR_FILE_NOT_FOUND, MTN_ERROR_FILE_CREATE_FAILED, MTN_ERROR_CODEC_NOT_FOUND,
        MTN_ERROR_CODEC_OPEN_FAILED, MTN_ERROR_STREAM_NOT_FOUND, MTN_ERROR_DECODE_FAILED,
        MTN_ERROR_FILTER_INIT_FAILED, MTN_ERROR_IMAGE_SAVE_FAILED, MTN_ERROR_BUFFER_TOO_SMALL]
      omega)])
  · intro err
    unfold mtn_error_string
    iterate 13 apply ite_some_ne_none
    exact Option.some_ne_none _

/-- C5 at the codes `-12` (defined), `-13` and `1` (not defined). -/
theorem C5_mtn_error_string_total_witness :
    mtn_error_string (-12) ≠ some "Unknown error" ∧
    mtn_error_string (-13) = some "Unknown error" ∧
    mtn_error_string 1 = some "Unknown error" :=
  ⟨C5_mtn_error_string_total.2.2.2.1 (-12) (by decide) (by decide),
   C5_mtn_error_string_total.2.2.2.2.1 (-13) (by decide),
   C5_mtn_error_string_total.2.2.2.2.1 1 (by decide)⟩

/-- The library's `tolower` on codes agrees with `Char.toLower`. -/
theorem toLower_toNat (c : Char) : c.toLower.toNat = tolower c.toNat := by
  have key : ∀ n : Nat, 65 ≤ n → n ≤ 90 → (Char.ofNat (n + 32)).toNat = n + 32 := by
    intro n h1 h2
    interval_cases n <;> rfl
  unfold Char.toLower tolower
  by_cases h : 65 ≤ c.toNat ∧ c.toNat ≤ 90
  · simp only [ge_iff_le, h, and_self, if_true]
    exact key c.toNat h.1 h.2
  · simp only [ge_iff_le, h, if_false]

/-- Equality of lower-cased codes is equality up to case. -/
theorem tolower_eq_iff (a b : Char) :
    tolower a.toNat = tolower b.toNat ↔ same_ignoring_case a b := by
  unfold same_ignoring_case
  rw [← toLower_toNat, ← toLower_toNat]
  constructor
  · intro h
    rw [← Char.ofNat_toNat a.toLower, h, Char.ofNat_toNat]
  · intro h
    rw [h]

/-- Only the code 0 is lower-cased to 0. -/
theorem tolower_ne_zero (n : Nat) (h : n ≠ 0) : tolower n ≠ 0 := by
  unfold tolower
  split
  · omega
  · exact h

/-- On strings without NUL, `strcasecmp` returns 0 exactly for strings that are
equal up to case. -/
theorem strcasecmp_eq_zero_iff (a b : CString)
    (ha : ∀ c ∈ a, c.toNat ≠ 0) (hb : ∀ c ∈ b, c.toNat ≠ 0) :
    strcasecmp a b = 0 ↔ List.Forall₂ same_ignoring_case a b := by
  induction a generalizing b with
  | nil =>
    cases b with
    | nil => simp [strcasecmp]
    | cons y ys =>
      have hy := tolower_ne_zero y.toNat (hb y (List.mem_cons_self y ys))
      simp only [strcasecmp, List.forall₂_nil_left_iff]
      constructor
      · intro h; omega
      · intro h; cases h
  | cons x xs ih =>
    cases b with
    | nil =>
      have hx := tolower_ne_zero x.toNat (ha x (List.mem_cons_self x xs))
      simp only [strcasecmp, List.forall₂_nil_right_iff]
      constructor
      · intro h; omega
      · intro h; cases h
    | cons y ys =>
      have hxs : ∀ c ∈ xs, c.toNat ≠ 0 := fun c hc => ha c (List.mem_cons_of_mem x hc)
      have hys : ∀ c ∈ ys, c.toNat ≠ 0 := fun c hc => hb c (List.mem_cons_of_mem y hc)
      simp only [strcasecmp, List.forall₂_cons]
      by_cases hxy : tolower x.toNat = tolower y.toNat
      · rw [if_pos hxy, ih ys hxs hys]
        simp [(tolower_eq_iff x y).mp hxy]
      · rw [if_neg hxy]
        constructor
        · intro h; omega
        · intro h; exact absurd ((tolower_eq_iff x y).mpr h.1) hxy

/-- The library's `strrchr` finds nothing exactly when the character is absent. -/
theorem strrchr_eq_none_iff (s : CString) (ch : Char) : strrchr s ch = none ↔ ch ∉ s := by
  induction s with
  | nil => simp [strrchr]
  | cons c cs ih =>
    unfold strrchr
    cases h : strrchr cs ch with
    | some r =>
      have hmem : ¬ (ch ∉ cs) := fun hn => by rw [ih.mpr hn] at h; cases h
      simp only [List.mem_cons, not_or]
      constructor
      · intro h2; cases h2
      · intro h2; exact absurd h2.2 hmem
    | none =>
      have hn : ch ∉ cs := ih.mp h
      by_cases hc : c = ch
      · simp [hc]
      · simp [hc, hn, Ne.symm hc]

/-- The library's `strrchr` returns the suffix that starts at the last
occurrence. -/
theorem strrchr_append (pre suf : CString) (ch : Char) (h : ch ∉ suf) :
    strrchr (pre ++ ch :: suf) ch = some (ch :: suf) := by
  induction pre with
  | nil =>
    show strrchr (ch :: suf) ch = some (ch :: suf)
    unfold strrchr
    rw [(strrchr_eq_none_iff suf ch).mpr h]
    simp
  | cons p ps ih =>
    show strrchr (p :: (ps ++ ch :: suf)) ch = some (ch :: suf)
    unfold strrchr
    rw [ih]

/-- What `strrchr` returns is a suffix starting at an occurrence after which
the character does not occur again. -/
theorem strrchr_eq_some (s : CString) (ch : Char) (e : CString) (h : strrchr s ch = some e) :
    ∃ pre suf : CString, s = pre ++ ch :: suf ∧ ch ∉ suf ∧ e = ch :: suf := by
  induction s with
  | nil => simp [strrchr] at h
  | cons c cs ih =>
    unfold strrchr at h
    cases h2 : strrchr cs ch with
    | some r =>
      rw [h2] at h
      simp only [Option.some.injEq] at h
      obtain ⟨pre, suf, h3, h4, h5⟩ := ih (h ▸ h2)
      exact ⟨c :: pre, suf, by rw [h3]; rfl, h4, h5⟩
    | none =>
      rw [h2] at h
      by_cases hc : c = ch
      · simp only [hc, if_true, Option.some.injEq] at h
        exact ⟨[], cs, by rw [hc]; rfl, (strrchr_eq_none_iff cs ch).mp h2, h.symm⟩
      · simp [hc] at h

/-- The test of `thumbnail_save_image` on the extension is the claim's
condition on the name. -/
theorem png_name_iff (name : CString) (hname : ∀ c ∈ name, c.toNat ≠ 0) :
    png_name name ↔ ∃ ext, strrchr name '.' = some ext ∧ strcasecmp ext ".png".toList = 0 := by
  have hpng : ∀ c ∈ ".png".toList, c.toNat ≠ 0 := by decide
  constructor
  · rintro ⟨pre, suf, h1, h2, h3⟩
    refine ⟨'.' :: suf, ?_, ?_⟩
    · rw [h1]; exact strrchr_append pre suf '.' h2
    · refine (strcasecmp_eq_zero_iff _ _ ?_ hpng).mpr h3
      intro c hc
      exact hname c (by rw [h1]; exact List.mem_append_right pre hc)
  · rintro ⟨ext, h1, h2⟩
    obtain ⟨pre, suf, h3, h4, h5⟩ := strrchr_eq_some name '.' ext h1
    refine ⟨pre, suf, h3, h4, ?_⟩
    rw [← h5]
    refine (strcasecmp_eq_zero_iff _ _ ?_ hpng).mp h2
    intro c hc
    exact hname c (by rw [h3, ← h5]; exact List.mem_append_right pre hc)

/-- C6: once the canvas is present and the output file is open,
`thumbnail_save_image` encodes PNG exactly when the suffix of the file name
that starts at its last `'.'` equals ".png" ignoring letter case, and JPEG with
the given quality in every other case; a name without `'.'` is such a case. -/
theorem C6_format_chosen_by_extension (fopen : CString → String → Option Handle)
    (c : ThumbnailContext) (im fp : Handle) (name : CString) (quality : Int) :
    c.out_image = some im → fopen name "wb" = some fp → (∀ ch ∈ name, ch.toNat ≠ 0) →
    (png_name name →
      thumbnail_save_image fopen (some c) (some name) quality
        = (0, [LibCall.fopen name "wb", LibCall.gdImagePng im fp, LibCall.fclose fp])) ∧
    (¬ png_name name →
      thumbnail_save_image fopen (some c) (some name) quality
        = (0, [LibCall.fopen name "wb", LibCall.gdImageJpeg im fp quality, LibCall.fclose fp])) ∧
    ('.' ∉ name → ¬ png_name name) := by
  intro him hfp hname
  refine ⟨?_, ?_, ?_⟩
  · intro hpng
    obtain ⟨ext, h1, h2⟩ := (png_name_iff name hname).mp hpng
    simp [thumbnail_save_image, him, hfp, h1]
    exact h2
  · intro hpng
    have h := mt (png_name_iff name hname).mpr hpng
    cases h1 : strrchr name '.' with
    | none => simp [thumbnail_save_image, him, hfp, h1]
    | some ext =>
      have h2 : strcasecmp ext ".png".toList ≠ 0 := fun h0 => h ⟨ext, h1, h0⟩
      simp [thumbnail_save_image, him, hfp, h1]
      exact h2
  · rintro hdot ⟨pre, suf, h1, _, _⟩
    exact hdot (by rw [h1]; simp)

/-- C6 at the names "shot.PNG" (PNG) and "noext" (JPEG). -/
theorem C6_format_chosen_by_extension_witness :
    thumbnail_save_image (fun _ _ => some 7) (some { opened_context 120 with out_image := some 3 })
        (some "shot.PNG".toList) 90
      = (0, [LibCall.fopen "shot.PNG".toList "wb", LibCall.gdImagePng 3 7, LibCall.fclose 7]) ∧
    thumbnail_save_image (fun _ _ => some 7) (some { opened_context 120 with out_image := some 3 })
        (some "noext".toList) 90
      = (0, [LibCall.fopen "noext".toList "wb", LibCall.gdImageJpeg 3 7 90, LibCall.fclose 7]) :=
  ⟨(C6_format_chosen_by_extension (fun _ _ => some 7)
      { opened_context 120 with out_image := some 3 } 3 7 "shot.PNG".toList 90 rfl rfl
      (by decide)).1
      ⟨"shot".toList, "PNG".toList, rfl, by decide, by simp [same_ignoring_case]⟩,
   (C6_format_chosen_by_extension (fun _ _ => some 7)
      { opened_context 120 with out_image := some 3 } 3 7 "noext".toList 90 rfl rfl
      (by decide)).2.1
      ((C6_format_chosen_by_extension (fun _ _ => some 7)
        { opened_context 120 with out_image := some 3 } 3 7 "noext".toList 90 rfl rfl
        (by decide)).2.2 (by decide))⟩

/-- The array access agrees with the bounds-checked access of
`thumbnail_open_file`. -/
theorem stream_at_of_in_bounds (fc : AVFormatContext) (i : Int)
    (h : ¬ (i < 0 ∨ fc.streams.length ≤ i.toNat)) :
    stream_at fc i = some (fc.streams.get ⟨i.toNat, by omega⟩) := by
  have h0 : 0 ≤ i := by omega
  have h1 : i.toNat < fc.streams.length := by omega
  simp [stream_at, h0, List.getElem?_eq_getElem h1]

/-- Out of bounds there is no stream. -/
theorem stream_at_of_out_of_bounds (fc : AVFormatContext) (i : Int)
    (h : i < 0 ∨ fc.streams.length ≤ i.toNat) : stream_at fc i = none := by
  unfold stream_at
  by_cases h0 : 0 ≤ i
  · rw [if_pos h0]
    exact List.getElem?_eq_none (by omega)
  · rw [if_neg h0]

/-- The function `thumbnail_open_file` on non-null arguments, with the bounds
check and the array access folded into `stream_at`. -/
theorem open_file_some (av : Libav) (c : ThumbnailContext) (name : CString) (sel : Int) :
    thumbnail_open_file av (some c) (some name) sel =
      match av.avformat_open_input c.format_ctx name with
      | none => (-1, some { c with format_ctx := none })
      | some fc0 =>
        match av.avformat_find_stream_info
            { fc0 with flags := fc0.flags ||| AVFMT_FLAG_GENPTS } with
        | none =>
          (-1, some { c with
            format_ctx := some { fc0 with flags := fc0.flags ||| AVFMT_FLAG_GENPTS }
            format_ctx_opened := 1 })
        | some fc =>
          match stream_at fc (chosen_stream_index sel) with
          | none =>
            (-1, some { c with format_ctx := some fc, format_ctx_opened := 1,
                               video_index := chosen_stream_index sel })
          | some st =>
            if st.codecpar.codec_type ≠ AVMEDIA_TYPE_VIDEO then
              (-1, some { c with format_ctx := some fc, format_ctx_opened := 1,
                                 video_index := chosen_stream_index sel })
            else
              (0, some { c with format_ctx := some fc, format_ctx_opened := 1,
                                video_index := chosen_stream_index sel,
                                time_base := av_q2d st.time_base_num st.time_base_den }) := by
  simp only [thumbnail_open_file]
  cases h0 : av.avformat_open_input c.format_ctx name with
  | none => rfl
  | some fc0 =>
    simp only []
    cases h1 : av.avformat_find_stream_info
        { fc0 with flags := fc0.flags ||| AVFMT_FLAG_GENPTS } with
    | none => rfl
    | some fc =>
      simp only []
      by_cases h : chosen_stream_index sel < 0 ∨ fc.streams.length ≤ (chosen_stream_index sel).toNat
      · rw [dif_pos h, stream_at_of_out_of_bounds fc _ h]
      · rw [dif_neg h, stream_at_of_in_bounds fc _ h]

/-- The chosen index is never negative, so the access is the list lookup. -/
theorem stream_at_chosen (fc : AVFormatContext) (sel : Int) :
    stream_at fc (chosen_stream_index sel)
      = fc.streams[(if sel ≥ 0 then sel else 0).toNat]? := by
  have h : 0 ≤ chosen_stream_index sel := by
    unfold chosen_stream_index
    split <;> omega
  unfold stream_at
  rw [if_pos h]
  rfl

/-- C7: `thumbnail_open_file` returns 0 exactly when both arguments are
non-null, the container opens, its stream information is read, the chosen
index (`select_stream` when it is `>= 0`, otherwise 0) is smaller than the
stream count and the stream at that index is a video stream; in every other
case it returns -1. On success `video_index` is the chosen index and the
stream it designates in the opened container is a video stream. -/
theorem C7_open_file_result (av : Libav) (ctx : Option ThumbnailContext)
    (filename : Option CString) (sel : Int) :
    ((thumbnail_open_file av ctx filename sel).1 = 0 ↔
      ∃ c name fc0 fc st, ctx = some c ∧ filename = some name ∧
        av.avformat_open_input c.format_ctx name = some fc0 ∧
        av.avformat_find_stream_info { fc0 with flags := fc0.flags ||| AVFMT_FLAG_GENPTS }
          = some fc ∧
        (if sel ≥ 0 then sel else 0) < (fc.streams.length : Int) ∧
        fc.streams[(if sel ≥ 0 then sel else 0).toNat]? = some st ∧
        st.codecpar.codec_type = AVMEDIA_TYPE_VIDEO) ∧
    ((thumbnail_open_file av ctx filename sel).1 ≠ 0 →
      (thumbnail_open_file av ctx filename sel).1 = -1) ∧
    ((thumbnail_open_file av ctx filename sel).1 = 0 →
      ∃ c2 fc st, (thumbnail_open_file av ctx filename sel).2 = some c2 ∧
        c2.video_index = (if sel ≥ 0 then sel else 0) ∧ c2.format_ctx = some fc ∧
        fc.streams[c2.video_index.toNat]? = some st ∧
        st.codecpar.codec_type = AVMEDIA_TYPE_VIDEO) := by
  cases ctx with
  | none => simp [thumbnail_open_file]
  | some c =>
    cases filename with
    | none => simp [thumbnail_open_file]
    | some name =>
      rw [open_file_some]
      rcases h0 : av.avformat_open_input c.format_ctx name with _ | fc0
      · simp [h0]
      · rcases h1 : av.avformat_find_stream_info
            { fc0 with flags := fc0.flags ||| AVFMT_FLAG_GENPTS } with _ | fc
        · simp [h0, h1]
        · have hlt : ∀ st, fc.streams[(if sel ≥ 0 then sel else 0).toNat]? = some st →
              (if sel ≥ 0 then sel else 0) < (fc.streams.length : Int) := by
            intro st hst
            have hb := (List.getElem?_eq_some_iff.mp hst).1
            split at hb <;> split <;> omega
          rcases h2 : stream_at fc (chosen_stream_index sel) with _ | st
          · have h2b := h2
            rw [stream_at_chosen] at h2b
            simp only [ge_iff_le] at h2b
            simp [h0, h1, h2, h2b]
          · have h2b := h2
            rw [stream_at_chosen] at h2b
            by_cases h3 : st.codecpar.codec_type = AVMEDIA_TYPE_VIDEO
            · simp [h0, h1, h2, h3]
              have hidx : chosen_stream_index sel = if 0 ≤ sel then sel else 0 := rfl
              simp only [ge_iff_le] at h2b hlt
              rw [hidx]
              exact ⟨⟨hlt st h2b, st, h2b, h3⟩, rfl, st, h2b, h3⟩
            · simp only [ge_iff_le] at h2b
              simp [h0, h1, h2, h2b, h3]


/-- C7 on a container with one video stream: the call with `select_stream = -1`
succeeds and leaves `video_index = 0`. -/
theorem C7_open_file_result_witness :
    ∃ c2 fc st,
      (thumbnail_open_file libav_one_video (some ThumbnailContext.zeroed)
          (some "movie.mkv".toList) (-1)).2 = some c2 ∧
      c2.video_index = (if (-1 : Int) ≥ 0 then -1 else 0) ∧ c2.format_ctx = some fc ∧
      fc.streams[c2.video_index.toNat]? = some st ∧
      st.codecpar.codec_type = AVMEDIA_TYPE_VIDEO :=
  (C7_open_file_result libav_one_video (some ThumbnailContext.zeroed)
    (some "movie.mkv".toList) (-1)).2.2 (by decide)
/-- C8, as stated, fails: a source that cannot be opened and a source whose
selected stream is an audio stream both make `thumbnail_open_file` return -1,
and a codec without decoder makes `thumbnail_init_decoder` return -1 as well;
no reading of the return value tells the three kinds apart. -/
theorem C8_failure_kinds_counterexample :
    libav_missing_file.avformat_open_input none "movie.mkv".toList = none ∧
    (thumbnail_open_file libav_missing_file (some ThumbnailContext.zeroed)
        (some "movie.mkv".toList) 0).1 = -1 ∧
    (thumbnail_open_file libav_audio_only (some ThumbnailContext.zeroed)
        (some "movie.mkv".toList) 0).1 = -1 ∧
    (thumbnail_open_file libav_no_decoder (some ThumbnailContext.zeroed)
        (some "movie.mkv".toList) 0).1 = 0 ∧
    (thumbnail_init_decoder libav_no_decoder 64
        (thumbnail_open_file libav_no_decoder (some ThumbnailContext.zeroed)
          (some "movie.mkv".toList) 0).2).map Prod.fst = some (-1) ∧
    ¬ ∃ kind_of : Int → OpenErrorKind,
        kind_of (thumbnail_open_file libav_missing_file (some ThumbnailContext.zeroed)
          (some "movie.mkv".toList) 0).1 = OpenErrorKind.NotFound ∧
        kind_of (thumbnail_open_file libav_audio_only (some ThumbnailContext.zeroed)
          (some "movie.mkv".toList) 0).1 = OpenErrorKind.NoVideoStream := by
  have h1 : (thumbnail_open_file libav_missing_file (some ThumbnailContext.zeroed)
      (some "movie.mkv".toList) 0).1 = -1 := by decide
  have h2 : (thumbnail_open_file libav_audio_only (some ThumbnailContext.zeroed)
      (some "movie.mkv".toList) 0).1 = -1 := by decide
  refine ⟨rfl, h1, h2, by decide, by decide, ?_⟩
  rintro ⟨kind_of, hk1, hk2⟩
  rw [h1] at hk1
  rw [h2, hk1] at hk2
  cases hk2

/-- The function `thumbnail_open_file` returns 0 exactly when both arguments
are non-null, the container opens, its stream information is read and the
chosen index designates a video stream. -/
theorem open_file_zero_iff (av : Libav) (ctx : Option ThumbnailContext)
    (filename : Option CString) (sel : Int) :
    (thumbnail_open_file av ctx filename sel).1 = 0 ↔
      ∃ c name fc0 fc st, ctx = some c ∧ filename = some name ∧
        av.avformat_open_input c.format_ctx name = some fc0 ∧
        av.avformat_find_stream_info { fc0 with flags := fc0.flags ||| AVFMT_FLAG_GENPTS }
          = some fc ∧
        stream_at fc (chosen_stream_index sel) = some st ∧
        st.codecpar.codec_type = AVMEDIA_TYPE_VIDEO := by
  cases ctx with
  | none => simp [thumbnail_open_file]
  | some c =>
    cases filename with
    | none => simp [thumbnail_open_file]
    | some name =>
      rw [open_file_some]
      rcases h0 : av.avformat_open_input c.format_ctx name with _ | fc0
      · simp [h0]
      · rcases h1 : av.avformat_find_stream_info
            { fc0 with flags := fc0.flags ||| AVFMT_FLAG_GENPTS } with _ | fc
        · simp [h0, h1]
        · rcases h2 : stream_at fc (chosen_stream_index sel) with _ | st
          · simp [h0, h1, h2]
          · by_cases h3 : st.codecpar.codec_type = AVMEDIA_TYPE_VIDEO <;>
              simp [h0, h1, h2, h3]

/-- The function `thumbnail_init_decoder`, on a context whose `video_index`
designates a stream of the opened container, returns 0 exactly when the codec
context is allocated, the parameters are copied, a decoder is found and the
codec opens; it returns -1 otherwise. -/
theorem init_decoder_zero_iff (av : Libav) (long_bits : Nat) (c : ThumbnailContext)
    (fc : AVFormatContext) (st : AVStream) (hfc : c.format_ctx = some fc)
    (hst : stream_at fc c.video_index = some st) :
    ((thumbnail_init_decoder av long_bits (some c)).map Prod.fst = some 0 ↔
      ∃ cc0 cc1 codec cc, av.avcodec_alloc_context3 = some cc0 ∧
        av.avcodec_parameters_to_context cc0 st.codecpar = some cc1 ∧
        av.avcodec_find_decoder cc1.codec_id = some codec ∧
        av.avcodec_open2 cc1 codec = some cc) ∧
    ((thumbnail_init_decoder av long_bits (some c)).map Prod.fst = some 0 ∨
      (thumbnail_init_decoder av long_bits (some c)).map Prod.fst = some (-1)) := by
  simp only [thumbnail_init_decoder, hfc, hst]
  rcases h0 : av.avcodec_alloc_context3 with _ | cc0
  · simp
  · rcases h1 : av.avcodec_parameters_to_context cc0 st.codecpar with _ | cc1
    · simp [h1]
    · rcases h2 : av.avcodec_find_decoder cc1.codec_id with _ | codec
      · simp [h1, h2]
      · rcases h3 : av.avcodec_open2 cc1 codec with _ | cc
        · simp [h1, h2, h3]
        · rcases h4 : av_dict_get st.metadata "rotate".toList with _ | value <;>
            simp [h1, h2, h3, h4]

/-- C8, amended: `thumbnail_open_file` returns 0 exactly when every step
succeeds and -1 otherwise; `thumbnail_init_decoder` returns -1 for a `NULL`
context or format context and, on a context whose `video_index` designates a
stream of the opened container, 0 exactly when every step succeeds and -1
otherwise. Every result is thus 0 or -1, and the three kinds of failure of the
specification all give -1: a source that cannot be opened, a selected stream
that does not exist or is not a video stream, a codec without decoder. -/
theorem C8_every_failure_is_minus_one (av : Libav) (long_bits : Nat) (sel : Int) :
    (∀ ctx filename, (thumbnail_open_file av ctx filename sel).1 = 0 ∨
        (thumbnail_open_file av ctx filename sel).1 = -1) ∧
    (∀ ctx r, thumbnail_init_decoder av long_bits ctx = some r → r.1 = 0 ∨ r.1 = -1) ∧
    (∀ c name, av.avformat_open_input c.format_ctx name = none →
        (thumbnail_open_file av (some c) (some name) sel).1 = -1) ∧
    (∀ c name fc0 fc, av.avformat_open_input c.format_ctx name = some fc0 →
        av.avformat_find_stream_info { fc0 with flags := fc0.flags ||| AVFMT_FLAG_GENPTS }
          = some fc →
        (∀ st, stream_at fc (chosen_stream_index sel) = some st →
          st.codecpar.codec_type ≠ AVMEDIA_TYPE_VIDEO) →
        (thumbnail_open_file av (some c) (some name) sel).1 = -1) ∧
    (∀ c fc st cc0 cc1, c.format_ctx = some fc → stream_at fc c.video_index = some st →
        av.avcodec_alloc_context3 = some cc0 →
        av.avcodec_parameters_to_context cc0 st.codecpar = some cc1 →
        av.avcodec_find_decoder cc1.codec_id = none →
        (thumbnail_init_decoder av long_bits (some c)).map Prod.fst = some (-1)) ∧
    (∀ ctx filename, (thumbnail_open_file av ctx filename sel).1 = 0 ↔
      ∃ c name fc0 fc st, ctx = some c ∧ filename = some name ∧
        av.avformat_open_input c.format_ctx name = some fc0 ∧
        av.avformat_find_stream_info { fc0 with flags := fc0.flags ||| AVFMT_FLAG_GENPTS }
          = some fc ∧
        stream_at fc (chosen_stream_index sel) = some st ∧
        st.codecpar.codec_type = AVMEDIA_TYPE_VIDEO) ∧
    thumbnail_init_decoder av long_bits none = some (-1, none) ∧
    (∀ c, c.format_ctx = none →
        thumbnail_init_decoder av long_bits (some c) = some (-1, some c)) ∧
    (∀ c fc st, c.format_ctx = some fc → stream_at fc c.video_index = some st →
      ((thumbnail_init_decoder av long_bits (some c)).map Prod.fst = some 0 ↔
        ∃ cc0 cc1 codec cc, av.avcodec_alloc_context3 = some cc0 ∧
          av.avcodec_parameters_to_context cc0 st.codecpar = some cc1 ∧
          av.avcodec_find_decoder cc1.codec_id = some codec ∧
          av.avcodec_open2 cc1 codec = some cc) ∧
      ((thumbnail_init_decoder av long_bits (some c)).map Prod.fst = some 0 ∨
        (thumbnail_init_decoder av long_bits (some c)).map Prod.fst = some (-1))) := by
  have hopen : ∀ ctx filename, (thumbnail_open_file av ctx filename sel).1 = 0 ∨
      (thumbnail_open_file av ctx filename sel).1 = -1 := by
    intro ctx filename
    cases ctx with
    | none => simp [thumbnail_open_file]
    | some c =>
      cases filename with
      | none => simp [thumbnail_open_file]
      | some name =>
        rw [open_file_some]
        rcases h0 : av.avformat_open_input c.format_ctx name with _ | fc0
        · simp
        · rcases h1 : av.avformat_find_stream_info
              { fc0 with flags := fc0.flags ||| AVFMT_FLAG_GENPTS } with _ | fc
          · simp [h1]
          · rcases h2 : stream_at fc (chosen_stream_index sel) with _ | st
            · simp [h1, h2]
            · by_cases h3 : st.codecpar.codec_type = AVMEDIA_TYPE_VIDEO <;> simp [h1, h2, h3]
  refine ⟨hopen, ?_, ?_, ?_, ?_, fun ctx filename => open_file_zero_iff av ctx filename sel, rfl, ?_,
    fun c fc st hfc hst => init_decoder_zero_iff av long_bits c fc st hfc hst⟩
  · intro ctx r hr
    unfold thumbnail_init_decoder at hr
    repeat' split at hr
    all_goals (cases hr <;> simp)
  · intro c name h0
    rw [open_file_some, h0]
  · intro c name fc0 fc h0 h1 hst
    rw [open_file_some, h0]
    simp only [h1]
    rcases h2 : stream_at fc (chosen_stream_index sel) with _ | st
    · simp [h2]
    · simp [h2, hst st h2]
  · intro c fc st cc0 cc1 hfc hst h0 h1 h2
    simp [thumbnail_init_decoder, hfc, hst, h0, h1, h2]
  · intro c hfc
    simp [thumbnail_init_decoder, hfc]

/-- C8, amended, at the three failing sources and at a source on which both
calls succeed. -/
theorem C8_every_failure_is_minus_one_witness :
    (thumbnail_open_file libav_missing_file (some ThumbnailContext.zeroed)
        (some "movie.mkv".toList) 0).1 = -1 ∧
    (thumbnail_open_file libav_audio_only (some ThumbnailContext.zeroed)
        (some "movie.mkv".toList) 0).1 = -1 ∧
    (thumbnail_init_decoder libav_no_decoder 64 (some (opened_context 120))).map Prod.fst
      = some (-1) ∧
    (thumbnail_init_decoder libav_one_video 64 (some (opened_context 120))).map Prod.fst
      = some 0 :=
  ⟨(C8_every_failure_is_minus_one libav_missing_file 64 0).2.2.1
      ThumbnailContext.zeroed "movie.mkv".toList rfl,
   (C8_every_failure_is_minus_one libav_audio_only 64 0).2.2.2.1
      ThumbnailContext.zeroed "movie.mkv".toList
      { flags := 0, duration := 120 * AV_TIME_BASE, streams := [sample_audio_stream] }
      { flags := 0 ||| AVFMT_FLAG_GENPTS, duration := 120 * AV_TIME_BASE,
        streams := [sample_audio_stream] }
      rfl rfl (by
        intro st hst
        have h : st = sample_audio_stream := by
          simp [stream_at, chosen_stream_index] at hst
          exact hst.symm
        rw [h]
        decide),
   (C8_every_failure_is_minus_one libav_no_decoder 64 0).2.2.2.2.1
      (opened_context 120)
      { flags := AVFMT_FLAG_GENPTS, duration := 120 * AV_TIME_BASE,
        streams := [sample_video_stream] }
      sample_video_stream { codec_id := 0, width := 0, height := 0 }
      { codec_id := 27, width := 1920, height := 1080 } rfl rfl rfl rfl rfl,
   ((C8_every_failure_is_minus_one libav_one_video 64 0).2.2.2.2.2.2.2.2
      (opened_context 120)
      { flags := AVFMT_FLAG_GENPTS, duration := 120 * AV_TIME_BASE,
        streams := [sample_video_stream] }
      sample_video_stream rfl rfl).1.mpr
      ⟨{ codec_id := 0, width := 0, height := 0 },
       { codec_id := 27, width := 1920, height := 1080 }, 27,
       { codec_id := 27, width := 1920, height := 1080 }, rfl, rfl, rfl, rfl⟩⟩

/-- The state after the step "Free filter graph". -/
theorem cleanup_filter_graph_state (c : ThumbnailContext) :
    (cleanup_filter_graph c).1 =
      { c with
        filter_graph := none
        buffersink_ctx := if c.filter_graph = none then c.buffersink_ctx else none
        buffersrc_ctx := if c.filter_graph = none then c.buffersrc_ctx else none } := by
  obtain ⟨a1, a2, a3, a4, a5, a6, a7, a8, a9, a10, a11, a12, a13, a14, a15, a16, a17, a18, a19⟩ := c
  cases a9 <;> rfl

/-- The state after the step "Free codec context". -/
theorem cleanup_codec_ctx_state (c : ThumbnailContext) :
    (cleanup_codec_ctx c).1 = { c with codec_ctx := none } := by
  obtain ⟨a1, a2, a3, a4, a5, a6, a7, a8, a9, a10, a11, a12, a13, a14, a15, a16, a17, a18, a19⟩ := c
  cases a2 with
  | none => rfl
  | some cc =>
    unfold cleanup_codec_ctx
    by_cases h : a18 ≠ 0 <;> simp [h]

/-- The state after the step "Free format context". -/
theorem cleanup_format_ctx_state (c : ThumbnailContext) :
    (cleanup_format_ctx c).1 =
      { c with format_ctx := if c.format_ctx_opened ≠ 0 then none else c.format_ctx } := by
  obtain ⟨a1, a2, a3, a4, a5, a6, a7, a8, a9, a10, a11, a12, a13, a14, a15, a16, a17, a18, a19⟩ := c
  cases a1 with
  | none =>
    unfold cleanup_format_ctx
    by_cases h : a17 ≠ 0 <;> simp [h]
  | some fc =>
    unfold cleanup_format_ctx
    by_cases h : a17 ≠ 0 <;> simp [h]

/-- The state after the first half of the step "Free frames". -/
theorem cleanup_frame_state (c : ThumbnailContext) :
    (cleanup_frame c).1 = { c with frame := none } := by
  obtain ⟨a1, a2, a3, a4, a5, a6, a7, a8, a9, a10, a11, a12, a13, a14, a15, a16, a17, a18, a19⟩ := c
  cases a3 <;> rfl

/-- The state after the second half of the step "Free frames". -/
theorem cleanup_frame_rgb_state (c : ThumbnailContext) :
    (cleanup_frame_rgb c).1 = { c with frame_rgb := none } := by
  obtain ⟨a1, a2, a3, a4, a5, a6, a7, a8, a9, a10, a11, a12, a13, a14, a15, a16, a17, a18, a19⟩ := c
  cases a4 <;> rfl

/-- The state after the step "Free RGB buffer". -/
theorem cleanup_rgb_buffer_state (c : ThumbnailContext) :
    (cleanup_rgb_buffer c).1 = { c with rgb_buffer := none } := by
  obtain ⟨a1, a2, a3, a4, a5, a6, a7, a8, a9, a10, a11, a12, a13, a14, a15, a16, a17, a18, a19⟩ := c
  cases a5 <;> rfl

/-- The state after the step "Free SwsContext". -/
theorem cleanup_sws_ctx_state (c : ThumbnailContext) :
    (cleanup_sws_ctx c).1 = { c with sws_ctx := none } := by
  obtain ⟨a1, a2, a3, a4, a5, a6, a7, a8, a9, a10, a11, a12, a13, a14, a15, a16, a17, a18, a19⟩ := c
  cases a6 <;> rfl

/-- The state after the first half of the step "Free GD images". -/
theorem cleanup_out_image_state (c : ThumbnailContext) :
    (cleanup_out_image c).1 = { c with out_image := none } := by
  obtain ⟨a1, a2, a3, a4, a5, a6, a7, a8, a9, a10, a11, a12, a13, a14, a15, a16, a17, a18, a19⟩ := c
  cases a10 <;> rfl

/-- The state after the second half of the step "Free GD images". -/
theorem cleanup_shadow_image_state (c : ThumbnailContext) :
    (cleanup_shadow_image c).1 = { c with shadow_image := none } := by
  obtain ⟨a1, a2, a3, a4, a5, a6, a7, a8, a9, a10, a11, a12, a13, a14, a15, a16, a17, a18, a19⟩ := c
  cases a11 <;> rfl

/-- The state after the step "Close info file". -/
theorem cleanup_info_fp_state (c : ThumbnailContext) :
    (cleanup_info_fp c).1 = { c with info_fp := none } := by
  obtain ⟨a1, a2, a3, a4, a5, a6, a7, a8, a9, a10, a11, a12, a13, a14, a15, a16, a17, a18, a19⟩ := c
  cases a12 <;> rfl

/-- The state `thumbnail_context_cleanup` leaves behind. -/
theorem cleanup_state (c : ThumbnailContext) :
    (thumbnail_context_cleanup (some c)).1 = some
      { c with
        format_ctx := if c.format_ctx_opened ≠ 0 then none else c.format_ctx
        codec_ctx := none
        frame := none
        frame_rgb := none
        rgb_buffer := none
        sws_ctx := none
        buffersink_ctx := if c.filter_graph = none then c.buffersink_ctx else none
        buffersrc_ctx := if c.filter_graph = none then c.buffersrc_ctx else none
        filter_graph := none
        out_image := none
        shadow_image := none
        info_fp := none } := by
  simp only [thumbnail_context_cleanup, and_then, cleanup_info_fp_state,
    cleanup_shadow_image_state, cleanup_out_image_state, cleanup_sws_ctx_state,
    cleanup_rgb_buffer_state, cleanup_frame_rgb_state, cleanup_frame_state,
    cleanup_format_ctx_state, cleanup_codec_ctx_state, cleanup_filter_graph_state]

/-- The release calls of `thumbnail_context_cleanup`, in order, in terms of the
context it is called on. -/
theorem cleanup_calls (c : ThumbnailContext) :
    (thumbnail_context_cleanup (some c)).2 =
      c.filter_graph.toList.map LibCall.avfilter_graph_free
      ++ (if c.codec_ctx.isSome then [LibCall.avcodec_free_context] else [])
      ++ (if c.format_ctx.isSome ∧ c.format_ctx_opened ≠ 0
            then [LibCall.avformat_close_input] else [])
      ++ c.frame.toList.map LibCall.av_frame_free
      ++ c.frame_rgb.toList.map LibCall.av_frame_free
      ++ c.rgb_buffer.toList.map LibCall.av_free
      ++ c.sws_ctx.toList.map LibCall.sws_freeContext
      ++ c.out_image.toList.map LibCall.gdImageDestroy
      ++ c.shadow_image.toList.map LibCall.gdImageDestroy
      ++ c.info_fp.toList.map LibCall.fclose := by
  have e1 : ∀ x : ThumbnailContext, (cleanup_filter_graph x).2
      = x.filter_graph.toList.map LibCall.avfilter_graph_free := by
    intro x; unfold cleanup_filter_graph; rcases h : x.filter_graph with _ | g <;> rfl
  have e2 : ∀ x : ThumbnailContext, (cleanup_codec_ctx x).2
      = if x.codec_ctx.isSome then [LibCall.avcodec_free_context] else [] := by
    intro x; unfold cleanup_codec_ctx
    rcases h : x.codec_ctx with _ | cc
    · rfl
    · by_cases h2 : x.codec_ctx_opened ≠ 0 <;> simp [h2]
  have e3 : ∀ x : ThumbnailContext, (cleanup_format_ctx x).2
      = if x.format_ctx.isSome ∧ x.format_ctx_opened ≠ 0
          then [LibCall.avformat_close_input] else [] := by
    intro x; unfold cleanup_format_ctx
    rcases h : x.format_ctx with _ | fc
    · simp
    · by_cases h2 : x.format_ctx_opened ≠ 0 <;> simp [h2]
  have e4 : ∀ x : ThumbnailContext, (cleanup_frame x).2
      = x.frame.toList.map LibCall.av_frame_free := by
    intro x; unfold cleanup_frame; rcases h : x.frame with _ | g <;> rfl
  have e5 : ∀ x : ThumbnailContext, (cleanup_frame_rgb x).2
      = x.frame_rgb.toList.map LibCall.av_frame_free := by
    intro x; unfold cleanup_frame_rgb; rcases h : x.frame_rgb with _ | g <;> rfl
  have e6 : ∀ x : ThumbnailContext, (cleanup_rgb_buffer x).2
      = x.rgb_buffer.toList.map LibCall.av_free := by
    intro x; unfold cleanup_rgb_buffer; rcases h : x.rgb_buffer with _ | g <;> rfl
  have e7 : ∀ x : ThumbnailContext, (cleanup_sws_ctx x).2
      = x.sws_ctx.toList.map LibCall.sws_freeContext := by
    intro x; unfold cleanup_sws_ctx; rcases h : x.sws_ctx with _ | g <;> rfl
  have e8 : ∀ x : ThumbnailContext, (cleanup_out_image x).2
      = x.out_image.toList.map LibCall.gdImageDestroy := by
    intro x; unfold cleanup_out_image; rcases h : x.out_image with _ | g <;> rfl
  have e9 : ∀ x : ThumbnailContext, (cleanup_shadow_image x).2
      = x.shadow_image.toList.map LibCall.gdImageDestroy := by
    intro x; unfold cleanup_shadow_image; rcases h : x.shadow_image with _ | g <;> rfl
  have e10 : ∀ x : ThumbnailContext, (cleanup_info_fp x).2
      = x.info_fp.toList.map LibCall.fclose := by
    intro x; unfold cleanup_info_fp; rcases h : x.info_fp with _ | g <;> rfl
  simp only [thumbnail_context_cleanup, and_then, cleanup_info_fp_state,
    cleanup_shadow_image_state, cleanup_out_image_state, cleanup_sws_ctx_state,
    cleanup_rgb_buffer_state, cleanup_frame_rgb_state, cleanup_frame_state,
    cleanup_format_ctx_state, cleanup_codec_ctx_state, cleanup_filter_graph_state,
    e1, e2, e3, e4, e5, e6, e7, e8, e9, e10]

/-- The guard of the cleanup step "Free format context" never bites on a
context that went through `thumbnail_open_file`: a format context that exists
afterwards is flagged as opened, provided this held before the call. -/
theorem open_file_format_flag (av : Libav) (c c2 : ThumbnailContext)
    (filename : Option CString) (sel : Int) (r : Int)
    (hinv : c.format_ctx ≠ none → c.format_ctx_opened ≠ 0)
    (h : thumbnail_open_file av (some c) filename sel = (r, some c2)) :
    c2.format_ctx ≠ none → c2.format_ctx_opened ≠ 0 := by
  cases filename with
  | none =>
    simp only [thumbnail_open_file, Prod.mk.injEq, Option.some.injEq] at h
    rw [← h.2]
    exact hinv
  | some name =>
    rw [open_file_some] at h
    rcases h0 : av.avformat_open_input c.format_ctx name with _ | fc0
    · simp only [h0, Prod.mk.injEq, Option.some.injEq] at h
      rw [← h.2]
      simp
    · simp only [h0] at h
      rcases h1 : av.avformat_find_stream_info
          { fc0 with flags := fc0.flags ||| AVFMT_FLAG_GENPTS } with _ | fc
      · simp only [h1, Prod.mk.injEq, Option.some.injEq] at h
        rw [← h.2]
        simp
      · simp only [h1] at h
        rcases h2 : stream_at fc (chosen_stream_index sel) with _ | st
        · simp only [h2, Prod.mk.injEq, Option.some.injEq] at h
          rw [← h.2]
          simp
        · simp only [h2] at h
          by_cases h3 : st.codecpar.codec_type = AVMEDIA_TYPE_VIDEO
          · simp only [h3, ne_eq, not_true_eq_false, if_false, Prod.mk.injEq,
              Option.some.injEq] at h
            rw [← h.2]
            simp
          · simp only [h3, ne_eq, not_false_eq_true, if_true, Prod.mk.injEq,
              Option.some.injEq] at h
            rw [← h.2]
            simp

/-- C9, as stated, fails: a context whose `format_ctx` is set while
`format_ctx_opened` is 0 keeps its `format_ctx` through
`thumbnail_context_cleanup`, which releases nothing. -/
theorem C9_cleanup_counterexample :
    preallocated_context.format_ctx_opened = 0 ∧
    thumbnail_context_cleanup (some preallocated_context) = (some preallocated_context, []) ∧
    ((thumbnail_context_cleanup (some preallocated_context)).1.bind
        (fun c => c.format_ctx)) ≠ none := by
  refine ⟨rfl, by decide, by decide⟩

/-- C9, amended: `thumbnail_context_cleanup` frees all resources of a non-null
context in which an existing `format_ctx` is flagged as opened and the filter
endpoints exist only with their graph: every resource that is held is released
by exactly one call (the filter graph, which owns the two endpoints, the codec
context, the format context, the two frames, the RGB buffer, the scaler
context, the two GD images, the info file), and afterwards every resource
handle field is `NULL`. -/
theorem C9_cleanup_clears_handles (c : ThumbnailContext) :
    (c.format_ctx ≠ none → c.format_ctx_opened ≠ 0) →
    (c.filter_graph = none → c.buffersink_ctx = none ∧ c.buffersrc_ctx = none) →
    ∃ c2, (thumbnail_context_cleanup (some c)).1 = some c2 ∧
      (c2.format_ctx = none ∧ c2.codec_ctx = none ∧ c2.frame = none ∧ c2.frame_rgb = none ∧
        c2.rgb_buffer = none ∧ c2.sws_ctx = none ∧ c2.filter_graph = none ∧
        c2.buffersink_ctx = none ∧ c2.buffersrc_ctx = none ∧ c2.out_image = none ∧
        c2.shadow_image = none ∧ c2.info_fp = none) ∧
      (thumbnail_context_cleanup (some c)).2 =
        c.filter_graph.toList.map LibCall.avfilter_graph_free
        ++ (if c.codec_ctx.isSome then [LibCall.avcodec_free_context] else [])
        ++ (if c.format_ctx.isSome then [LibCall.avformat_close_input] else [])
        ++ c.frame.toList.map LibCall.av_frame_free
        ++ c.frame_rgb.toList.map LibCall.av_frame_free
        ++ c.rgb_buffer.toList.map LibCall.av_free
        ++ c.sws_ctx.toList.map LibCall.sws_freeContext
        ++ c.out_image.toList.map LibCall.gdImageDestroy
        ++ c.shadow_image.toList.map LibCall.gdImageDestroy
        ++ c.info_fp.toList.map LibCall.fclose := by
  intro h1 h2
  refine ⟨_, cleanup_state c, ⟨?_, rfl, rfl, rfl, rfl, rfl, rfl, ?_, ?_, rfl, rfl, rfl⟩, ?_⟩
  · by_cases h : c.format_ctx_opened ≠ 0
    · simp [h]
    · have h3 : c.format_ctx = none := by
        by_contra h4
        exact h (h1 h4)
      simp [h, h3]
  · by_cases h : c.filter_graph = none
    · simp [h, (h2 h).1]
    · simp [h]
  · by_cases h : c.filter_graph = none
    · simp [h, (h2 h).2]
    · simp [h]
  · rw [cleanup_calls]
    have hfmt : (if c.format_ctx.isSome ∧ c.format_ctx_opened ≠ 0
          then [LibCall.avformat_close_input] else [])
        = (if c.format_ctx.isSome then [LibCall.avformat_close_input] else []) := by
      rcases hf : c.format_ctx with _ | fc
      · simp
      · have hop : c.format_ctx_opened ≠ 0 := h1 (by rw [hf]; exact Option.some_ne_none fc)
        simp [hop]
    rw [hfmt]

/-- C9, amended, at a fully set up context with a canvas: eight releases, then
every handle is `NULL`. -/
theorem C9_cleanup_clears_handles_witness :
    ∃ c2, (thumbnail_context_cleanup (some full_context)).1 = some c2 ∧
      (c2.format_ctx = none ∧ c2.codec_ctx = none ∧ c2.frame = none ∧ c2.frame_rgb = none ∧
        c2.rgb_buffer = none ∧ c2.sws_ctx = none ∧ c2.filter_graph = none ∧
        c2.buffersink_ctx = none ∧ c2.buffersrc_ctx = none ∧ c2.out_image = none ∧
        c2.shadow_image = none ∧ c2.info_fp = none) ∧
      (thumbnail_context_cleanup (some full_context)).2 =
        [LibCall.avfilter_graph_free 7, LibCall.avcodec_free_context,
         LibCall.avformat_close_input, LibCall.av_frame_free 1, LibCall.av_frame_free 2,
         LibCall.av_free 3, LibCall.sws_freeContext 4, LibCall.gdImageDestroy 8] := by
  obtain ⟨c2, h1, h2, h3⟩ := C9_cleanup_clears_handles full_context (by decide) (by decide)
  exact ⟨c2, h1, h2, h3.trans (by decide)⟩

/-- The code of a decimal digit character. -/
theorem digit_char_toNat (d : Nat) (h : d < 10) : (Char.ofNat (48 + d)).toNat = 48 + d := by
  interval_cases d <;> rfl

/-- Reading the digits of a numeral gives back the number. -/
theorem foldl_digits (l : List Nat) (h : ∀ d ∈ l, d < 10) :
    (l.reverse.map (fun d => Char.ofNat (48 + d))).foldl
        (fun acc c => acc * 10 + (c.toNat - 48)) 0 = Nat.ofDigits 10 l := by
  induction l with
  | nil => rfl
  | cons d t ih =>
    have hd : d < 10 := h d (List.mem_cons_self d t)
    have ht : ∀ x ∈ t, x < 10 := fun x hx => h x (List.mem_cons_of_mem d hx)
    rw [List.reverse_cons, List.map_append, List.foldl_append, ih ht]
    simp only [List.map_cons, List.map_nil, List.foldl_cons, List.foldl_nil]
    rw [digit_char_toNat d hd, Nat.ofDigits_cons]
    omega

/-- A numeral consists of digits only. -/
theorem decimal_all_digits (n : Nat) : ∀ c ∈ decimal n, isdigit c = true := by
  intro c hc
  unfold decimal at hc
  split at hc
  · simp only [List.mem_singleton] at hc
    rw [hc]
    rfl
  · simp only [List.mem_map, List.mem_reverse] at hc
    obtain ⟨d, hd, rfl⟩ := hc
    have hlt : d < 10 := Nat.digits_lt_base (by norm_num) hd
    simp only [isdigit, digit_char_toNat d hlt, Bool.and_eq_true, decide_eq_true_eq]
    omega

/-- The value `strtol` reads from a numeral is the number. -/
theorem digits_value_decimal (n : Nat) : digits_value (decimal n) = n := by
  unfold digits_value
  rw [List.takeWhile_eq_self_iff.mpr (decimal_all_digits n)]
  unfold decimal
  split
  · next h => rw [h]; rfl
  · rw [foldl_digits _ (fun d hd => Nat.digits_lt_base (by norm_num) hd), Nat.ofDigits_digits]

/-- A numeral starts with a digit: neither white space nor a sign. -/
theorem decimal_head (n : Nat) : ∃ c t, decimal n = c :: t ∧ isdigit c = true := by
  have hall := decimal_all_digits n
  cases h : decimal n with
  | nil =>
    unfold decimal at h
    split at h
    · cases h
    · next hn =>
      simp only [List.map_eq_nil_iff, List.reverse_eq_nil_iff] at h
      exact absurd (Nat.digits_eq_nil_iff_eq_zero.mp h) hn
  | cons c t =>
    rw [h] at hall
    exact ⟨c, t, rfl, hall c (List.mem_cons_self c t)⟩

/-- The function `strtol` reads a numeral below `2^31` as the number it spells,
for every `long` of at least 32 bits, and the conversion to `int` keeps it. -/
theorem strtol_decimal (long_bits n : Nat) (hl : 32 ≤ long_bits) (hn : n < 2 ^ 31) :
    long_to_int (strtol long_bits (decimal n)) = n := by
  obtain ⟨c, t, hct, hc⟩ := decimal_head n
  have hnotspace : isspace c = false := by
    simp only [isdigit, Bool.and_eq_true, decide_eq_true_eq] at hc
    simp only [isspace, Bool.or_eq_false_iff, decide_eq_false_iff_not, Bool.and_eq_false_iff]
    omega
  have hne1 : c ≠ '-' := by
    intro h; rw [h] at hc; revert hc; decide
  have hne2 : c ≠ '+' := by
    intro h; rw [h] at hc; revert hc; decide
  have hv : digits_value (c :: t) = n := by rw [← hct]; exact digits_value_decimal n
  have hpow : (2 : Int) ^ 31 ≤ 2 ^ (long_bits - 1) :=
    pow_le_pow_right₀ (by norm_num) (by omega)
  have hn2 : (n : Int) < 2 ^ 31 := by exact_mod_cast hn
  have hdrop : List.dropWhile isspace (c :: t) = c :: t := by
    simp [List.dropWhile, hnotspace]
  unfold strtol
  rw [hct]
  simp only [hdrop]
  have hmatch : (match c :: t with
      | '-' :: t2 => - (digits_value t2 : Int)
      | '+' :: t2 => (digits_value t2 : Int)
      | _ => (digits_value (c :: t) : Int)) = (n : Int) := by
    split
    · next h => simp only [List.cons.injEq] at h; exact absurd h.1 hne1
    · next h => simp only [List.cons.injEq] at h; exact absurd h.1 hne2
    · rw [hv]
  rw [hmatch]
  have h1 : ¬ ((n : Int) > 2 ^ (long_bits - 1) - 1) := by omega
  have h2 : ¬ ((n : Int) < - 2 ^ (long_bits - 1)) := by
    have : (0 : Int) ≤ n := Int.natCast_nonneg n
    omega
  rw [if_neg h1, if_neg h2]
  unfold long_to_int
  norm_num at hn2 ⊢
  omega

/-- C10, as stated, fails: for a video stream tagged `rotate=45`
`thumbnail_init_decoder` succeeds and records the rotation 45, which is none of
0, 90, 180, 270. -/
theorem C10_rotation_counterexample :
    ∃ c2, thumbnail_init_decoder libav_one_video 64 (some rotate45_context) = some (0, some c2) ∧
      c2.rotation = 45 ∧
      ¬ (c2.rotation = 0 ∨ c2.rotation = 90 ∨ c2.rotation = 180 ∨ c2.rotation = 270) :=
  ⟨rotate45_decoded, by rfl, rfl, by decide⟩

/-- The rotation a successful `thumbnail_init_decoder` records. -/
theorem init_decoder_rotation (av : Libav) (long_bits : Nat) (c c2 : ThumbnailContext)
    (fc : AVFormatContext) (st : AVStream) (hfc : c.format_ctx = some fc)
    (hst : stream_at fc c.video_index = some st)
    (h : thumbnail_init_decoder av long_bits (some c) = some (0, some c2)) :
    c2.rotation = (match av_dict_get st.metadata "rotate".toList with
      | some value => long_to_int (strtol long_bits value)
      | none => 0) := by
  simp only [thumbnail_init_decoder, hfc, hst] at h
  rcases h0 : av.avcodec_alloc_context3 with _ | cc0
  · simp [h0] at h
  · simp only [h0] at h
    rcases h1 : av.avcodec_parameters_to_context cc0 st.codecpar with _ | cc1
    · simp [h1] at h
    · simp only [h1] at h
      rcases h2 : av.avcodec_find_decoder cc1.codec_id with _ | codec
      · simp [h2] at h
      · simp only [h2] at h
        rcases h3 : av.avcodec_open2 cc1 codec with _ | cc
        · simp [h3] at h
        · simp only [h3] at h
          rcases h4 : av_dict_get st.metadata "rotate".toList with _ | value
          · simp only [h4, Option.some.injEq, Prod.mk.injEq, true_and] at h
            rw [← h]
          · simp only [h4, Option.some.injEq, Prod.mk.injEq, true_and] at h
            rw [← h]

/-- C10, amended: after `thumbnail_init_decoder` succeeds, the rotation
recorded in the context is 0 when the stream has no "rotate" tag, and otherwise
the integer `strtol` reads from the tag's value, converted to `int`, whatever
it is: a tag that spells the number `n < 2^31` in decimal gives the rotation
`n`. -/
theorem C10_rotation_is_parsed_tag (av : Libav) (long_bits : Nat) (c c2 : ThumbnailContext)
    (fc : AVFormatContext) (st : AVStream) :
    c.format_ctx = some fc → stream_at fc c.video_index = some st →
    thumbnail_init_decoder av long_bits (some c) = some (0, some c2) →
    (av_dict_get st.metadata "rotate".toList = none → c2.rotation = 0) ∧
    (∀ value, av_dict_get st.metadata "rotate".toList = some value →
      c2.rotation = long_to_int (strtol long_bits value)) ∧
    (∀ n : Nat, 32 ≤ long_bits → n < 2 ^ 31 →
      av_dict_get st.metadata "rotate".toList = some (decimal n) → c2.rotation = n) := by
  intro hfc hst h
  have h4 := init_decoder_rotation av long_bits c c2 fc st hfc hst h
  refine ⟨?_, ?_, ?_⟩
  · intro hnone
    rw [h4, hnone]
  · intro value hsome
    rw [h4, hsome]
  · intro n hl hn hsome
    rw [h4, hsome]
    exact strtol_decimal long_bits n hl hn

/-- The numeral of 45. -/
theorem decimal_45 : decimal 45 = "45".toList := by
  simp [decimal]

/-- C10, amended, at the stream tagged `rotate=45`: the rotation is 45. -/
theorem C10_rotation_is_parsed_tag_witness :
    thumbnail_init_decoder libav_one_video 64 (some rotate45_context)
      = some (0, some rotate45_decoded) ∧
    rotate45_decoded.rotation = ((45 : Nat) : Int) :=
  ⟨by rfl,
   (C10_rotation_is_parsed_tag libav_one_video 64 rotate45_context rotate45_decoded
      rotate45_format rotate45_stream rfl rfl (by rfl)).2.2 45 (by decide) (by decide)
      (by rw [decimal_45]; decide)⟩

/-- C11: with non-null arguments and a codec context, `thumbnail_calc_dimensions`
stores the codec's width and height, replaces a column count `<= 0` by the
default 3 and keeps a positive one, maps a row count `<= 0` to 0 and keeps a
positive one; afterwards `columns >= 1` and `rows >= 0`, and a second call
changes nothing. -/
theorem C11_calc_dimensions (c : ThumbnailContext) (cc : AVCodecContext)
    (w h col row : Int) :
    c.codec_ctx = some cc →
    ∃ col1 row1 : Int,
      thumbnail_calc_dimensions (some c) (some w) (some h) (some col) (some row)
        = some (some cc.width, some cc.height, some col1, some row1) ∧
      (col ≤ 0 → col1 = 3 ∧ col1 = GB_C_COLUMN) ∧ (0 < col → col1 = col) ∧
      (row ≤ 0 → row1 = 0 ∧ row1 = GB_R_ROW) ∧ (0 < row → row1 = row) ∧
      1 ≤ col1 ∧ 0 ≤ row1 ∧
      thumbnail_calc_dimensions (some c) (some cc.width) (some cc.height) (some col1) (some row1)
        = some (some cc.width, some cc.height, some col1, some row1) := by
  intro hcc
  refine ⟨if col ≤ 0 then 3 else col, if row ≤ 0 then 0 else row, ?_, ?_, ?_, ?_, ?_, ?_, ?_, ?_⟩
  · simp [thumbnail_calc_dimensions, hcc]
  · intro hc
    simp [hc, GB_C_COLUMN]
  · intro hc
    rw [if_neg (by omega)]
  · intro hr
    simp [hr, GB_R_ROW]
  · intro hr
    rw [if_neg (by omega)]
  · split <;> omega
  · split <;> omega
  · have h1 : ¬ ((if col ≤ 0 then (3 : Int) else col) ≤ 0) := by split <;> omega
    have h2 : (if (if row ≤ 0 then (0 : Int) else row) ≤ 0 then (0 : Int)
        else (if row ≤ 0 then 0 else row)) = (if row ≤ 0 then 0 else row) := by
      by_cases hr : row ≤ 0 <;> simp [hr]
    simp only [thumbnail_calc_dimensions, hcc, if_neg h1, h2]

/-- C11 on the initialised 1920x1080 decoder with `columns = 0`, `rows = -2`. -/
theorem C11_calc_dimensions_witness :
    ∃ col1 row1 : Int,
      thumbnail_calc_dimensions (some (opened_context 120)) (some 0) (some 0) (some 0) (some (-2))
        = some (some 1920, some 1080, some col1, some row1) ∧
      col1 = 3 ∧ row1 = 0 := by
  obtain ⟨col1, row1, h1, h2, _, h4, _⟩ :=
    C11_calc_dimensions (opened_context 120) { codec_id := 27, width := 1920, height := 1080 }
      0 0 0 (-2) rfl
  exact ⟨col1, row1, h1, (h2 (by decide)).1, (h4 (by decide)).1⟩

/-- The result of `thumbnail_save_image` once the canvas is present and the
file is open: 0, after exactly one encoder call between `fopen` and `fclose`. -/
theorem save_image_opened (fopen : CString → String → Option Handle) (c : ThumbnailContext)
    (name : CString) (quality : Int) (im fp : Handle) (him : c.out_image = some im)
    (hfp : fopen name "wb" = some fp) :
    thumbnail_save_image fopen (some c) (some name) quality
        = (0, [LibCall.fopen name "wb", LibCall.gdImagePng im fp, LibCall.fclose fp]) ∨
    thumbnail_save_image fopen (some c) (some name) quality
        = (0, [LibCall.fopen name "wb", LibCall.gdImageJpeg im fp quality, LibCall.fclose fp]) := by
  simp only [thumbnail_save_image, him, hfp]
  rcases h1 : strrchr name '.' with _ | ext
  · right
    rfl
  · by_cases h2 : strcasecmp ext ".png".toList = 0
    · left
      simp only [h2, if_true]
    · right
      simp only [h2, if_false]

/-- C12: `thumbnail_save_image` returns -1 and makes no call at all (it opens
no file and encodes nothing) when `ctx`, `ctx->out_image` or `filename` is
`NULL`; it returns 0 exactly when the three are present and the file opens,
and -1 when the file does not open; the context is the same after the call. -/
theorem C12_save_image_guards (fopen : CString → String → Option Handle)
    (ctx : Option ThumbnailContext) (filename : Option CString) (quality : Int) :
    ((ctx = none ∨ filename = none ∨ ∃ c, ctx = some c ∧ c.out_image = none) →
      thumbnail_save_image fopen ctx filename quality = (-1, [])) ∧
    ((thumbnail_save_image fopen ctx filename quality).1 = 0 ↔
      ∃ c name im fp, ctx = some c ∧ filename = some name ∧ c.out_image = some im ∧
        fopen name "wb" = some fp) ∧
    (∀ c name im, ctx = some c → filename = some name → c.out_image = some im →
      fopen name "wb" = none →
      thumbnail_save_image fopen ctx filename quality = (-1, [LibCall.fopen name "wb"])) ∧
    ((thumbnail_save_image fopen ctx filename quality).1 = 0 ∨
      (thumbnail_save_image fopen ctx filename quality).1 = -1) ∧
    thumbnail_save_image_ctx fopen ctx filename quality = ctx := by
  cases ctx with
  | none => simp [thumbnail_save_image, thumbnail_save_image_ctx]
  | some c =>
    cases filename with
    | none => simp [thumbnail_save_image, thumbnail_save_image_ctx]
    | some name =>
      rcases him : c.out_image with _ | im
      · simp [thumbnail_save_image, thumbnail_save_image_ctx, him]
        intro c2 name2 im2 h1 _ h3
        subst h1
        rw [him] at h3
        cases h3
      · rcases hfp : fopen name "wb" with _ | fp
        · simp [thumbnail_save_image, thumbnail_save_image_ctx, him, hfp]
          intro c2 name2 im2 _ h2 _ _
          exact h2
        · have hret : (thumbnail_save_image fopen (some c) (some name) quality).1 = 0 := by
            rcases save_image_opened fopen c name quality im fp him hfp with h | h <;> rw [h]
          refine ⟨?_, ?_, ?_, Or.inl hret, ?_⟩
          · rintro (h | h | ⟨c2, h1, h2⟩)
            · cases h
            · cases h
            · cases h1
              rw [him] at h2
              cases h2
          · simp only [hret, true_iff]
            exact ⟨c, name, im, fp, rfl, rfl, him, hfp⟩
          · intro c2 name2 im2 h1 h2 _ h4
            cases h1
            cases h2
            rw [hfp] at h4
            cases h4
          · simp [thumbnail_save_image_ctx, him, hfp]

/-- C12 on a context without canvas: -1, no call made, context unchanged. -/
theorem C12_save_image_guards_witness :
    thumbnail_save_image (fun _ _ => some 7) (some (opened_context 120))
        (some "sheet.jpg".toList) 90 = (-1, []) ∧
    thumbnail_save_image_ctx (fun _ _ => some 7) (some (opened_context 120))
        (some "sheet.jpg".toList) 90 = some (opened_context 120) :=
  ⟨(C12_save_image_guards (fun _ _ => some 7) (some (opened_context 120))
      (some "sheet.jpg".toList) 90).1 (Or.inr (Or.inr ⟨opened_context 120, rfl, rfl⟩)),
   (C12_save_image_guards (fun _ _ => some 7) (some (opened_context 120))
      (some "sheet.jpg".toList) 90).2.2.2.2⟩

/-- The state after the cleanup of `argv0`. -/
theorem cleanup_argv0_state (c : MtnContext) :
    (cleanup_argv0 c).1 = { c with argv0 := none } := by
  unfold cleanup_argv0
  rcases h : c.argv0 with _ | s
  · cases c
    simp only at h
    subst h
    rfl
  · rfl

/-- The state after the cleanup of `x_basename_custom`. -/
theorem cleanup_x_basename_custom_state (c : MtnContext) :
    (cleanup_x_basename_custom c).1 = { c with x_basename_custom := none } := by
  unfold cleanup_x_basename_custom
  rcases h : c.x_basename_custom with _ | s
  · cases c
    simp only at h
    subst h
    rfl
  · rfl

/-- The state after the cleanup of `_filters`. -/
theorem cleanup_filters_state (c : MtnContext) :
    (cleanup_filters c).1 = { c with _filters := none } := by
  unfold cleanup_filters
  rcases h : c._filters with _ | s
  · cases c
    simp only at h
    subst h
    rfl
  · rfl

/-- The state after the cleanup of `_filter_color_primaries`. -/
theorem cleanup_filter_color_primaries_state (c : MtnContext) :
    (cleanup_filter_color_primaries c).1 = { c with _filter_color_primaries := none } := by
  unfold cleanup_filter_color_primaries
  rcases h : c._filter_color_primaries with _ | s
  · cases c
    simp only at h
    subst h
    rfl
  · rfl

/-- The state after the step "Free movie extensions array". -/
theorem cleanup_movie_ext_state (c : MtnContext) :
    (cleanup_movie_ext c).1 = { c with movie_ext := none } := by
  unfold cleanup_movie_ext
  rcases h : c.movie_ext with _ | s
  · cases c
    simp only at h
    subst h
    rfl
  · rfl

/-- The state `mtn_context_cleanup` leaves behind. -/
theorem mtn_cleanup_state (c : MtnContext) :
    (mtn_context_cleanup (some c)).1 = some
      { c with
        argv0 := none
        x_basename_custom := none
        _filters := none
        _filter_color_primaries := none
        movie_ext := none } := by
  simp only [mtn_context_cleanup, cleanup_movie_ext_state, cleanup_filter_color_primaries_state,
    cleanup_filters_state, cleanup_x_basename_custom_state, cleanup_argv0_state]

/-- The calls to `free` that `mtn_context_cleanup` makes: one for each of the
four strings that is set, and for a set `movie_ext` one per element followed by
one for the array. -/
theorem mtn_cleanup_calls (c : MtnContext) :
    (mtn_context_cleanup (some c)).2 =
      (c.argv0.toList ++ c.x_basename_custom.toList ++ c._filters.toList
        ++ c._filter_color_primaries.toList).map FreeCall.string
      ++ (match c.movie_ext with
          | some exts => exts.map FreeCall.string ++ [FreeCall.ext_array exts]
          | none => []) := by
  simp only [mtn_context_cleanup, cleanup_filter_color_primaries_state,
    cleanup_filters_state, cleanup_x_basename_custom_state, cleanup_argv0_state]
  rcases h1 : c.argv0 with _ | s1 <;> rcases h2 : c.x_basename_custom with _ | s2 <;>
    rcases h3 : c._filters with _ | s3 <;>
    rcases h4 : c._filter_color_primaries with _ | s4 <;>
    rcases h5 : c.movie_ext with _ | exts <;>
    simp [cleanup_argv0, cleanup_x_basename_custom, cleanup_filters,
      cleanup_filter_color_primaries, cleanup_movie_ext, h1, h2, h3, h4, h5]

/-- The calls on options with a program name, a filter string and two
extensions. -/
theorem mtn_cleanup_calls_parsed :
    (mtn_context_cleanup (some parsed_options)).2 =
      [FreeCall.string "mtn", FreeCall.string "hflip", FreeCall.string "mkv",
       FreeCall.string "mp4", FreeCall.ext_array ["mkv", "mp4"]] := by
  rfl

/-- C13: for every non-null context `mtn_context_cleanup` sets `argv0`,
`x_basename_custom`, `_filters`, `_filter_color_primaries` and `movie_ext` to
`NULL` and leaves every other field as it was (among them `e_ext`, the font
names, the suffixes, `version` and `_options`); it passes to `free` only those
five members; applied right after `mtn_context_init` it leaves the initialised
state, and applied twice it leaves what one application leaves. -/
theorem C13_mtn_context_cleanup_frame (cfg : BuildConfig) (c prior : MtnContext) :
    ∃ c2 : MtnContext, (mtn_context_cleanup (some c)).1 = some c2 ∧
      (c2.argv0 = none ∧ c2.x_basename_custom = none ∧ c2._filters = none ∧
        c2._filter_color_primaries = none ∧ c2.movie_ext = none) ∧
      c2 = { c with
             argv0 := none
             x_basename_custom := none
             _filters := none
             _filter_color_primaries := none
             movie_ext := none } ∧
      (c2.e_ext = c.e_ext ∧ c2.f_fontname = c.f_fontname ∧ c2.F_ts_fontname = c.F_ts_fontname ∧
        c2.N_suffix = c.N_suffix ∧ c2.o_suffix = c.o_suffix ∧
        c2._cover_suffix = c._cover_suffix ∧ c2.version = c.version ∧
        c2._options = c._options ∧ c2.T_text = c.T_text ∧ c2.O_outdir = c.O_outdir) ∧
      (mtn_context_cleanup (some c)).2 =
        (c.argv0.toList ++ c.x_basename_custom.toList ++ c._filters.toList
          ++ c._filter_color_primaries.toList).map FreeCall.string
        ++ (match c.movie_ext with
            | some exts => exts.map FreeCall.string ++ [FreeCall.ext_array exts]
            | none => []) ∧
      (mtn_context_cleanup (mtn_context_init cfg (some prior))).1
        = mtn_context_init cfg (some prior) ∧
      (mtn_context_cleanup (mtn_context_init cfg (some prior))).2 = [] ∧
      (mtn_context_cleanup (mtn_context_cleanup (some c)).1).1
        = (mtn_context_cleanup (some c)).1 ∧
      (mtn_context_cleanup (mtn_context_cleanup (some c)).1).2 = [] := by
  refine ⟨_, mtn_cleanup_state c, ⟨rfl, rfl, rfl, rfl, rfl⟩, rfl,
    ⟨rfl, rfl, rfl, rfl, rfl, rfl, rfl, rfl, rfl, rfl⟩, mtn_cleanup_calls c, rfl, rfl, ?_, ?_⟩
  · rw [mtn_cleanup_state, mtn_cleanup_state]
  · rw [mtn_cleanup_state, mtn_cleanup_calls]
    rfl

/-- The four set-up calls succeed on the sample container and lead from the
all-zero context to `set_up_done`. -/
theorem set_up_runs :
    thumbnail_open_file libav_one_video (some ThumbnailContext.zeroed)
        (some "movie.mkv".toList) 0 = (0, some set_up_opened) ∧
    thumbnail_init_decoder libav_one_video 64 (some set_up_opened)
        = some (0, some set_up_decoded) ∧
    thumbnail_init_filters libavfilter_ok (some set_up_decoded) (some "hflip".toList)
        = some (0, some set_up_filtered) ∧
    thumbnail_alloc_frames libavframe_ok (some set_up_filtered) 1920 1080 0
        = (0, some set_up_done) :=
  ⟨by rfl, by rfl, by rfl, by rfl⟩

/-- What a successful `thumbnail_open_file` changes in the context. -/
theorem open_file_success (av : Libav) (c0 c1 : ThumbnailContext) (name : CString) (sel : Int)
    (h : thumbnail_open_file av (some c0) (some name) sel = (0, some c1)) :
    ∃ fc tb, c1 = { c0 with
                    format_ctx := some fc
                    format_ctx_opened := 1
                    video_index := chosen_stream_index sel
                    time_base := tb } := by
  rw [open_file_some] at h
  rcases h0 : av.avformat_open_input c0.format_ctx name with _ | fc0
  · simp [h0] at h
  · simp only [h0] at h
    rcases h1 : av.avformat_find_stream_info
        { fc0 with flags := fc0.flags ||| AVFMT_FLAG_GENPTS } with _ | fc
    · simp [h1] at h
    · simp only [h1] at h
      rcases h2 : stream_at fc (chosen_stream_index sel) with _ | st
      · simp [h2] at h
      · simp only [h2] at h
        by_cases h3 : st.codecpar.codec_type = AVMEDIA_TYPE_VIDEO
        · simp only [h3, ne_eq, not_true_eq_false, if_false, Prod.mk.injEq,
            Option.some.injEq, true_and] at h
          exact ⟨fc, av_q2d st.time_base_num st.time_base_den, h.symm⟩
        · simp [h3] at h

/-- What a successful `thumbnail_init_decoder` changes in the context. -/
theorem init_decoder_success (av : Libav) (long_bits : Nat) (c1 c2 : ThumbnailContext)
    (h : thumbnail_init_decoder av long_bits (some c1) = some (0, some c2)) :
    ∃ cc rot, c2 = { c1 with codec_ctx := some cc, codec_ctx_opened := 1, rotation := rot } := by
  simp only [thumbnail_init_decoder] at h
  rcases hfc : c1.format_ctx with _ | fc
  · simp [hfc] at h
  · simp only [hfc] at h
    rcases hst : stream_at fc c1.video_index with _ | st
    · simp [hst] at h
    · simp only [hst] at h
      rcases h0 : av.avcodec_alloc_context3 with _ | cc0
      · simp [h0] at h
      · simp only [h0] at h
        rcases h1 : av.avcodec_parameters_to_context cc0 st.codecpar with _ | cc1
        · simp [h1] at h
        · simp only [h1] at h
          rcases h2 : av.avcodec_find_decoder cc1.codec_id with _ | codec
          · simp [h2] at h
          · simp only [h2] at h
            rcases h3 : av.avcodec_open2 cc1 codec with _ | cc
            · simp [h3] at h
            · simp only [h3] at h
              rcases h4 : av_dict_get st.metadata "rotate".toList with _ | value
              · simp only [h4, Option.some.injEq, Prod.mk.injEq, true_and] at h
                exact ⟨cc, 0, h.symm⟩
              · simp only [h4, Option.some.injEq, Prod.mk.injEq, true_and] at h
                exact ⟨cc, long_to_int (strtol long_bits value), h.symm⟩

/-- What a successful `thumbnail_init_filters` with a filter string changes in
a context that has a codec context. -/
theorem init_filters_success (avf : Libavfilter) (c2 c3 : ThumbnailContext) (str : CString)
    (cc : AVCodecContext) (hcc : c2.codec_ctx = some cc)
    (h : thumbnail_init_filters avf (some c2) (some str) = some (0, some c3)) :
    ∃ g src sink, c3 = { c2 with
                         filter_graph := some g
                         buffersrc_ctx := some src
                         buffersink_ctx := some sink
                         filter_graph_initialized := 1 } := by
  simp only [thumbnail_init_filters, hcc] at h
  rcases h0 : avf.avfilter_graph_alloc with _ | g
  · simp [h0] at h
  · simp only [h0] at h
    rcases hst : c2.format_ctx.bind (fun fc => stream_at fc c2.video_index) with _ | st
    · simp [hst] at h
    · simp only [hst] at h
      rcases h1 : avf.create_buffersrc g
          { width := cc.width, height := cc.height,
            time_base_num := st.time_base_num, time_base_den := st.time_base_den } with _ | src
      · simp [h1] at h
      · simp only [h1] at h
        rcases h2 : avf.create_buffersink g with _ | sink
        · simp [h2] at h
        · simp only [h2] at h
          rcases h3 : avf.avfilter_inout_alloc_outputs with _ | o
          · simp [h3] at h
          · rcases h4 : avf.avfilter_inout_alloc_inputs with _ | i
            · simp [h3, h4] at h
            · simp only [h3, h4] at h
              rcases h5 : avf.avfilter_graph_parse_ptr g str with _ | _
              · simp [h5] at h
              · rcases h6 : avf.avfilter_graph_config g with _ | _
                · simp [h5, h6] at h
                · simp only [h5, h6, Bool.true_eq_false, if_false, Option.some.injEq,
                    Prod.mk.injEq, true_and] at h
                  refine ⟨g, src, sink, ?_⟩
                  rw [← h, hcc]

/-- What a successful `thumbnail_alloc_frames` changes in the context. -/
theorem alloc_frames_success (fr : Libavframe) (c3 c4 : ThumbnailContext) (w h pix_fmt : Int)
    (hr : thumbnail_alloc_frames fr (some c3) w h pix_fmt = (0, some c4)) :
    ∃ f frgb buf s, c4 = { c3 with
                           frame := some f
                           frame_rgb := some frgb
                           rgb_buffer := some buf
                           sws_ctx := some s } := by
  simp only [thumbnail_alloc_frames] at hr
  rcases h0 : fr.av_frame_alloc 0 with _ | f
  · simp [h0] at hr
  · simp only [h0] at hr
    rcases h1 : fr.av_frame_alloc 1 with _ | frgb
    · simp [h1] at hr
    · simp only [h1] at hr
      by_cases h2 : fr.av_image_get_buffer_size w h < 0
      · simp [h2] at hr
      · simp only [h2, if_false] at hr
        rcases h3 : fr.av_malloc (fr.av_image_get_buffer_size w h) with _ | buf
        · simp [h3] at hr
        · simp only [h3] at hr
          by_cases h4 : fr.av_image_fill_arrays frgb buf w h < 0
          · simp [h4] at hr
          · simp only [h4, if_false] at hr
            rcases h5 : fr.sws_getContext w h pix_fmt with _ | s
            · simp [h5] at hr
            · simp only [h5, Prod.mk.injEq, Option.some.injEq, true_and] at hr
              exact ⟨f, frgb, buf, s, hr.symm⟩

/-- C14, as stated, fails: on the context the four set-up calls produce,
`thumbnail_context_cleanup` releases filter graph, codec context, format
context, decode frame, RGB frame, RGB buffer, scaler context, in this order,
which is not the reverse of the acquisition order: the scaler context, acquired
last, is released last and not first. -/
theorem C14_release_order_counterexample :
    thumbnail_open_file libav_one_video (some ThumbnailContext.zeroed)
        (some "movie.mkv".toList) 0 = (0, some set_up_opened) ∧
    thumbnail_init_decoder libav_one_video 64 (some set_up_opened)
        = some (0, some set_up_decoded) ∧
    thumbnail_init_filters libavfilter_ok (some set_up_decoded) (some "hflip".toList)
        = some (0, some set_up_filtered) ∧
    thumbnail_alloc_frames libavframe_ok (some set_up_filtered) 1920 1080 0
        = (0, some set_up_done) ∧
    (thumbnail_context_cleanup (some set_up_done)).2 =
      [LibCall.avfilter_graph_free 7, LibCall.avcodec_free_context,
       LibCall.avformat_close_input, LibCall.av_frame_free 1, LibCall.av_frame_free 2,
       LibCall.av_free 3, LibCall.sws_freeContext 4] ∧
    reverse_acquisition_order set_up_done =
      [LibCall.sws_freeContext 4, LibCall.av_free 3, LibCall.av_frame_free 2,
       LibCall.av_frame_free 1, LibCall.avfilter_graph_free 7, LibCall.avcodec_free_context,
       LibCall.avformat_close_input] ∧
    (thumbnail_context_cleanup (some set_up_done)).2 ≠ reverse_acquisition_order set_up_done := by
  have h1 : (thumbnail_context_cleanup (some set_up_done)).2 =
      [LibCall.avfilter_graph_free 7, LibCall.avcodec_free_context,
       LibCall.avformat_close_input, LibCall.av_frame_free 1, LibCall.av_frame_free 2,
       LibCall.av_free 3, LibCall.sws_freeContext 4] := by decide
  have h2 : reverse_acquisition_order set_up_done =
      [LibCall.sws_freeContext 4, LibCall.av_free 3, LibCall.av_frame_free 2,
       LibCall.av_frame_free 1, LibCall.avfilter_graph_free 7, LibCall.avcodec_free_context,
       LibCall.avformat_close_input] := by decide
  refine ⟨by rfl, by rfl, by rfl, by rfl, h1, h2, ?_⟩
  rw [h1, h2]
  decide

/-- C14, amended: on a context on which `thumbnail_open_file`,
`thumbnail_init_decoder`, `thumbnail_init_filters` (with a filter string) and
`thumbnail_alloc_frames` have succeeded in that order,
`thumbnail_context_cleanup` releases each of the seven handles once, in the
fixed order of its body: filter graph, codec context, format context, decode
frame, RGB frame, RGB buffer, scaler context, followed by what the starting
context held of canvas, shadow image and info file. The calls are those of the
reverse acquisition order, rearranged, and the order differs from it. -/
theorem C14_release_order_of_body (av : Libav) (avf : Libavfilter) (fr : Libavframe)
    (long_bits : Nat) (c0 c1 c2 c3 c4 : ThumbnailContext) (name str : CString)
    (sel w h pix_fmt : Int) :
    thumbnail_open_file av (some c0) (some name) sel = (0, some c1) →
    thumbnail_init_decoder av long_bits (some c1) = some (0, some c2) →
    thumbnail_init_filters avf (some c2) (some str) = some (0, some c3) →
    thumbnail_alloc_frames fr (some c3) w h pix_fmt = (0, some c4) →
    ∃ g f frgb buf s,
      c4.filter_graph = some g ∧ c4.frame = some f ∧ c4.frame_rgb = some frgb ∧
      c4.rgb_buffer = some buf ∧ c4.sws_ctx = some s ∧
      c4.codec_ctx ≠ none ∧ c4.format_ctx ≠ none ∧
      (thumbnail_context_cleanup (some c4)).2 =
        [LibCall.avfilter_graph_free g, LibCall.avcodec_free_context,
         LibCall.avformat_close_input, LibCall.av_frame_free f, LibCall.av_frame_free frgb,
         LibCall.av_free buf, LibCall.sws_freeContext s]
        ++ (c0.out_image.toList.map LibCall.gdImageDestroy
            ++ c0.shadow_image.toList.map LibCall.gdImageDestroy
            ++ c0.info_fp.toList.map LibCall.fclose) ∧
      reverse_acquisition_order c4 =
        [LibCall.sws_freeContext s, LibCall.av_free buf, LibCall.av_frame_free frgb,
         LibCall.av_frame_free f, LibCall.avfilter_graph_free g, LibCall.avcodec_free_context,
         LibCall.avformat_close_input] ∧
      List.Perm ((thumbnail_context_cleanup (some c4)).2.take 7) (reverse_acquisition_order c4) ∧
      (thumbnail_context_cleanup (some c4)).2.take 7 ≠ reverse_acquisition_order c4 := by
  intro h1 h2 h3 h4
  obtain ⟨fc, tb, e1⟩ := open_file_success av c0 c1 name sel h1
  obtain ⟨cc, rot, e2⟩ := init_decoder_success av long_bits c1 c2 h2
  have hcc : c2.codec_ctx = some cc := by rw [e2]
  obtain ⟨g, src, sink, e3⟩ := init_filters_success avf c2 c3 str cc hcc h3
  obtain ⟨f, frgb, buf, s, e4⟩ := alloc_frames_success fr c3 c4 w h pix_fmt h4
  have hcalls : (thumbnail_context_cleanup (some c4)).2 =
      [LibCall.avfilter_graph_free g, LibCall.avcodec_free_context,
       LibCall.avformat_close_input, LibCall.av_frame_free f, LibCall.av_frame_free frgb,
       LibCall.av_free buf, LibCall.sws_freeContext s]
      ++ (c0.out_image.toList.map LibCall.gdImageDestroy
          ++ c0.shadow_image.toList.map LibCall.gdImageDestroy
          ++ c0.info_fp.toList.map LibCall.fclose) := by
    rw [cleanup_calls, e4, e3, e2, e1]
    simp
  have hrev : reverse_acquisition_order c4 =
      [LibCall.sws_freeContext s, LibCall.av_free buf, LibCall.av_frame_free frgb,
       LibCall.av_frame_free f, LibCall.avfilter_graph_free g, LibCall.avcodec_free_context,
       LibCall.avformat_close_input] := by
    rw [e4, e3, e2, e1]
    simp [reverse_acquisition_order]
  have htake : (thumbnail_context_cleanup (some c4)).2.take 7 =
      [LibCall.avfilter_graph_free g, LibCall.avcodec_free_context,
       LibCall.avformat_close_input, LibCall.av_frame_free f, LibCall.av_frame_free frgb,
       LibCall.av_free buf, LibCall.sws_freeContext s] := by
    rw [hcalls]
    simp
  refine ⟨g, f, frgb, buf, s, ?_, ?_, ?_, ?_, ?_, ?_, ?_, hcalls, hrev, ?_, ?_⟩
  · rw [e4, e3]
  · rw [e4]
  · rw [e4]
  · rw [e4]
  · rw [e4]
  · rw [e4, e3, e2]; simp
  · rw [e4, e3, e2, e1]; simp
  · rw [htake, hrev]
    have hp : [LibCall.avfilter_graph_free g, LibCall.avcodec_free_context,
        LibCall.avformat_close_input, LibCall.av_frame_free f, LibCall.av_frame_free frgb,
        LibCall.av_free buf, LibCall.sws_freeContext s]
        = ([LibCall.sws_freeContext s, LibCall.av_free buf, LibCall.av_frame_free frgb,
            LibCall.av_frame_free f] ++ [LibCall.avfilter_graph_free g,
            LibCall.avcodec_free_context, LibCall.avformat_close_input].reverse).reverse := by
      simp
    rw [hp]
    refine (List.reverse_perm _).trans ?_
    exact List.Perm.append_left _ (List.reverse_perm _)
  · rw [htake, hrev]
    intro hEq
    simp at hEq

/-- C14, amended, on the sample container: graph 7, codec context, format
context, frames 1 and 2, buffer 3, scaler 4. -/
theorem C14_release_order_of_body_witness :
    (thumbnail_context_cleanup (some set_up_done)).2 =
      [LibCall.avfilter_graph_free 7, LibCall.avcodec_free_context,
       LibCall.avformat_close_input, LibCall.av_frame_free 1, LibCall.av_frame_free 2,
       LibCall.av_free 3, LibCall.sws_freeContext 4] := by
  obtain ⟨g, f, frgb, buf, s, hg, hf, hfrgb, hbuf, hs, _, _, h, _⟩ :=
    C14_release_order_of_body libav_one_video libavfilter_ok libavframe_ok 64
      ThumbnailContext.zeroed set_up_opened set_up_decoded set_up_filtered set_up_done
      "movie.mkv".toList "hflip".toList 0 1920 1080 0 (by rfl) (by rfl) (by rfl) (by rfl)
  have eg : g = 7 := Option.some.inj (hg.symm.trans (rfl : set_up_done.filter_graph = some 7))
  have ef : f = 1 := Option.some.inj (hf.symm.trans (rfl : set_up_done.frame = some 1))
  have efrgb : frgb = 2 :=
    Option.some.inj (hfrgb.symm.trans (rfl : set_up_done.frame_rgb = some 2))
  have ebuf : buf = 3 := Option.some.inj (hbuf.symm.trans (rfl : set_up_done.rgb_buffer = some 3))
  have es : s = 4 := Option.some.inj (hs.symm.trans (rfl : set_up_done.sws_ctx = some 4))
  subst eg ef efrgb ebuf es
  rw [h]
  rfl

end Mtn
